import Mathlib

/-!
Verification development for the `infineum_validator_engine` repository.

The repository has three independent validation entry points:
* `src/file_validation.py` — a warehouse validate-and-insert pipeline
  (`check_pattern`, `validate_data`, `insert_valid_records`);
* `src/validator.new.py` — a standalone in-memory record validator
  (`is_alpha_numeric`, `is_numeric`, `is_decimal`, `validate_record`,
  `check_duplicates`, plus an embedded fixture);
* `src/validator.py` — a warehouse structural validator
  (`validate_csv_against_table`).

This file shallowly embeds those components.  Conventions used throughout:
* Python exceptions are modelled with `Except PyErr`;
* Python `float` values are modelled as exact decimals `Dec10`
  (`num / 10 ^ scale`); binary64 rounding is not modelled, so arithmetic
  comparisons are exact.  Python renders floats with a shortest positional
  decimal form, which `pyFloatRepr` reproduces for finite decimals
  (the exponent form Python uses for very large/small magnitudes is not modelled);
* the regular expression classes `\d` and `[a-zA-Z0-9]` are modelled over
  ASCII (the repository's data is ASCII CSV text);
* Python's `re.match` with a pattern anchored by `$` also succeeds when the
  subject ends in a single trailing newline (`$` matches just before a
  trailing newline); `pyMatchDollar` reproduces this.
-/

/-- Python exception kinds raised by the embedded code paths. -/
inductive PyErr where
  | typeError
  | valueError
  | attributeError
deriving DecidableEq

/-- Exact decimal number `num / 10 ^ scale`, the model of a Python `float`. -/
structure Dec10 where
  num : Int
  scale : Nat
deriving DecidableEq

/-- Python runtime values as they occur in rows of the warehouse pipeline:
`None`, `str`, `int`, `float` and `bool`. -/
inductive PyValue where
  | none
  | str (s : String)
  | int (n : Int)
  | float (d : Dec10)
  | bool (b : Bool)
deriving DecidableEq

/-- ASCII digit, the model of the regex class `\d`. -/
def isAsciiDigitC (c : Char) : Bool := '0' ≤ c && c ≤ '9'

/-- ASCII alphanumeric, the model of the regex class `[a-zA-Z0-9]`. -/
def isAsciiAlnumC (c : Char) : Bool :=
  ('a' ≤ c && c ≤ 'z') || ('A' ≤ c && c ≤ 'Z') || isAsciiDigitC c

/-- Whole-subject match for `[a-zA-Z0-9]+` (one or more). -/
def alphaNumCore (cs : List Char) : Bool := !cs.isEmpty && cs.all isAsciiAlnumC

/-- Whole-subject match for `[a-zA-Z0-9]*` (zero or more). -/
def alphaStarCore (cs : List Char) : Bool := cs.all isAsciiAlnumC

/-- Whole-subject match for `\d+`. -/
def numericCore (cs : List Char) : Bool := !cs.isEmpty && cs.all isAsciiDigitC

/-- Match a char list against `(\d+)(\.\d+)?` in full, returning the two
digit groups (the fractional group without its dot, `[]` when absent).  The
groups are maximal, which coincides with regex matching here: after the
digit group only a dot or the end may follow. -/
def decGroups (cs : List Char) : Option (List Char × List Char) :=
  let ip := cs.takeWhile isAsciiDigitC
  let rest := cs.dropWhile isAsciiDigitC
  if ip.isEmpty then Option.none
  else
    match rest with
    | [] => some (ip, [])
    | '.' :: fr =>
      if ¬ fr.isEmpty ∧ fr.all isAsciiDigitC then some (ip, fr) else Option.none
    | _ => Option.none

/-- Whole-subject match for `\d{1,10}(\.\d{1,10})?`: a `(\d+)(\.\d+)?` match
whose groups have at most 10 digits each (a bounded repetition `\d{1,10}`
followed by `.` or the end forces the same maximal grouping). -/
def decimalCore (cs : List Char) : Bool :=
  match decGroups cs with
  | some g => g.1.length ≤ 10 && g.2.length ≤ 10
  | Option.none => false

/-- Python `bool(re.match('^P$', s))` for a core whole-subject matcher `P`:
besides the exact match, `$` also matches just before one trailing newline. -/
def pyMatchDollar (core : List Char → Bool) (s : String) : Bool :=
  core s.data ||
    (match s.data.getLast? with
     | some c => c = '\n' && core s.data.dropLast
     | _ => false)

/-- Embedding of `check_pattern(value, field_type)`
(`src/file_validation.py` lines 7-14).  `patterns.get(field_type, '')` yields
the empty pattern for an unrecognized type, and `re.match('', s)` succeeds on
every string (an empty match at position 0), so an unrecognized type matches
everything.  `re.match` on a non-string subject (None, int, float, bool)
raises `TypeError`. -/
def check_pattern (value : PyValue) (field_type : String) : Except PyErr Bool :=
  match value with
  | .str s =>
    if field_type = "alpha_numeric" then .ok (pyMatchDollar alphaNumCore s)
    else if field_type = "numeric" then .ok (pyMatchDollar numericCore s)
    else if field_type = "decimal" then .ok (pyMatchDollar decimalCore s)
    else .ok true
  | _ => .error .typeError

/-- Strip trailing decimal zeros: `stripZeros n k` reduces `n / 10 ^ k` to an
equal fraction whose numerator is not divisible by 10 (unless the scale hits
0 first). -/
def stripZeros : Int → Nat → Int × Nat
  | n, 0 => (n, 0)
  | n, k + 1 => if n % 10 = 0 then stripZeros (n / 10) k else (n, k + 1)

/-- Left-pad a digit string with zeros to width `k`. -/
def padZeros (s : String) (k : Nat) : String :=
  String.mk (List.replicate (k - s.length) '0') ++ s

/-- Python `str` of a float, for finite decimals: the shortest positional
form, always with a decimal point (`str(1000.0) = "1000.0"`,
`str(1000.01) = "1000.01"`). -/
def pyFloatRepr (d : Dec10) : String :=
  let p := stripZeros d.num d.scale
  let sign := if p.1 < 0 then "-" else ""
  let a := p.1.natAbs
  let ipart := a / 10 ^ p.2
  let fpart := a % 10 ^ p.2
  if p.2 = 0 then sign ++ toString ipart ++ ".0"
  else sign ++ toString ipart ++ "." ++ padZeros (toString fpart) p.2

/-- Python `str(value)` on the modelled value kinds. -/
def pyStr : PyValue → String
  | .none => "None"
  | .str s => s
  | .int n => toString n
  | .float d => pyFloatRepr d
  | .bool b => if b then "True" else "False"

/-- Python `value == 0` (numeric cross-type equality: `0`, `0.0` and `False`
all equal `0`; strings and `None` never do). -/
def pyEqZero : PyValue → Bool
  | .int n => n = 0
  | .float d => d.num = 0
  | .bool b => !b
  | _ => false

/-- One row of a queryable table: an ordered field-name/value mapping. -/
abbrev Row := List (String × PyValue)

/-- A queryable table handle (Snowpark DataFrame): column names plus
materialized rows. -/
structure DataFrame where
  columns : List String
  rows : List Row
deriving DecidableEq

/-- Row field lookup, the model of `row[field]` / `field in row.asDict()`
(`none` when the field is absent). -/
def rlookup : Row → String → Option PyValue
  | [], _ => Option.none
  | (g, v) :: rest, f => if g = f then some v else rlookup rest f

/-- Row field lookup with `None` (`NULL`) as default, the model of reading a
column's value from a row server-side. -/
def rlookupD (r : Row) (f : String) : PyValue := (rlookup r f).getD .none

/-- Per-field rule of the warehouse pipeline's JSON schema
(`validation_rules['fields'][field]`): `required` and `type` are accessed
unconditionally, the size keys through `.get(…, 0)`. -/
structure FieldRule where
  required : Bool
  type : String
  size : Option Int := Option.none
  size_before_decimal : Option Int := Option.none
  size_after_decimal : Option Int := Option.none
deriving DecidableEq

/-- The warehouse pipeline's parsed JSON rule document. -/
structure ValidationRules where
  fields : List (String × FieldRule)
  duplicate_field_check : Bool
  columns : List String
deriving DecidableEq

/-- Error message of the required-field check (`src/file_validation.py`
line 46). -/
def reqMsgW (f : String) : String :=
  "Field " ++ f ++ " is required but is null or empty."

/-- Error message of the alpha_numeric size check (line 50). -/
def sizeMsgW (f : String) : String :=
  "Field " ++ f ++ " exceeds the allowed size."

/-- Error message of the pattern check (line 54). -/
def patMsgW (f t : String) : String :=
  "Field " ++ f ++ " does not match the expected pattern (" ++ t ++ ")."

/-- Error message of the numeric zero check (line 58). -/
def zeroMsgW (f : String) : String :=
  "Field " ++ f ++ " cannot have zero value."

/-- Error message of the digits-before-decimal check (line 74). -/
def beforeMsgW (f : String) : String :=
  "Field " ++ f ++ " exceeds the allowed number of digits before decimal."

/-- Error message of the digits-after-decimal check (line 76). -/
def afterMsgW (f : String) : String :=
  "Field " ++ f ++ " exceeds the allowed number of digits after decimal."

/-- Digit-count errors of the decimal branch (`src/file_validation.py`
lines 61-76): `str(value)` is split at its decimal point (the modelled float
repr always contains one, matching the code's `find('.')` guard) and each
part's length is compared against the configured bound. -/
def decSizeErrs (f : String) (rule : FieldRule) (d : Dec10) : List String :=
  let s := (pyFloatRepr d).data
  let before := s.takeWhile (· ≠ '.')
  let after := (s.dropWhile (· ≠ '.')).drop 1
  (if (before.length : Int) > rule.size_before_decimal.getD 0 then [beforeMsgW f] else [])
    ++ (if (after.length : Int) > rule.size_after_decimal.getD 0 then [afterMsgW f] else [])

/-- Per-field body of `validate_data`'s row loop (`src/file_validation.py`
lines 42-76), run when the field is present in the row.  The pattern check is
evaluated unconditionally, so a non-string value makes the whole body raise
`TypeError` (any errors appended before the raise are lost). -/
def fieldChecks (field : String) (rule : FieldRule) (value : PyValue) :
    Except PyErr (List String) :=
  let reqPart :=
    if rule.required ∧ (value = .none ∨ value = .str "") then [reqMsgW field] else []
  let sizePart :=
    if rule.type = "alpha_numeric" ∧ ((pyStr value).length : Int) > rule.size.getD 0
    then [sizeMsgW field] else []
  match check_pattern value rule.type with
  | .error e => .error e
  | .ok ok =>
    let patPart := if ok then [] else [patMsgW field rule.type]
    let zeroPart := if rule.type = "numeric" ∧ pyEqZero value then [zeroMsgW field] else []
    let decPart :=
      if rule.type = "decimal" then
        match value with
        | .float d => decSizeErrs field rule d
        | _ => []
      else []
    .ok (reqPart ++ sizePart ++ patPart ++ zeroPart ++ decPart)

/-- Inner loop of `validate_data` over the rule fields of one row
(`src/file_validation.py` lines 40-76): fields absent from the row are
skipped, errors of present fields accumulate in rule order. -/
def rowLoop (fields : List (String × FieldRule)) (row : Row) :
    Except PyErr (List String) :=
  match fields with
  | [] => .ok []
  | (f, rule) :: rest =>
    match rlookup row f with
    | Option.none => rowLoop rest row
    | some v => do
      let e1 ← fieldChecks f rule v
      let e2 ← rowLoop rest row
      return e1 ++ e2

/-- Outer loop of `validate_data` over all collected rows
(`src/file_validation.py` line 39). -/
def dataLoop (fields : List (String × FieldRule)) (rows : List Row) :
    Except PyErr (List String) :=
  match rows with
  | [] => .ok []
  | r :: rs => do
    let e1 ← rowLoop fields r
    let e2 ← dataLoop fields rs
    return e1 ++ e2

/-- The duplicate-flag construction of `validate_data`
(`src/file_validation.py` lines 31-36): for each schema column present in the
data, the code lazily adds a derived `{field}_duplicate` column and then
executes `seen.add(col(field))`.  `snowflake.snowpark.Column` overrides
`__eq__` (to build an SQL expression) without defining `__hash__`, so the
`Column` object is unhashable and the `add` raises `TypeError` at the first
schema column found in the data (before any query runs, so the lazy
`withColumn` is unobservable; even without this, the first
`col(field).isin(seen)` with `seen = set()` would build invalid `IN ()` SQL
and fault at `collect`).  Columns absent from the data are skipped, so when
no schema column is present the block completes without touching the data. -/
def dupFlagBlock : List String → DataFrame → Except PyErr DataFrame
  | [], df => .ok df
  | c :: rest, df =>
    if c ∈ df.columns then .error .typeError
    else dupFlagBlock rest df

/-- Embedding of `validate_data(session, data, validation_rules,
snowpark_table)` (`src/file_validation.py` lines 22-78).  The
`session.table(snowpark_table)` schema fetch at lines 26-28 assigns
`table_columns`/`table_schema`, which are never used afterwards, so the
session and table name are not parameters of the model. -/
def validate_data (rules : ValidationRules) (data : DataFrame) :
    Except PyErr (List String) :=
  match (if rules.duplicate_field_check then dupFlagBlock rules.columns data
         else .ok data) with
  | .error e => .error e
  | .ok data' => dataLoop rules.fields data'.rows

/-- The success message of `insert_valid_records`
(`src/file_validation.py` line 90): `len(data.collect())` is the row count. -/
def successMsg (data : DataFrame) (table : String) : String :=
  "Successfully inserted " ++ toString data.rows.length ++
    " valid records into " ++ table ++ "."

/-- Embedding of `insert_valid_records(session, data, snowpark_table,
validation_rules)` (`src/file_validation.py` lines 81-90).  The result pairs
the returned value (error list or success string) with the list of datasets
appended to the warehouse table, so the write path is part of the
observable behaviour. -/
def insert_valid_records (data : DataFrame) (table : String)
    (rules : ValidationRules) :
    Except PyErr ((List String ⊕ String) × List DataFrame) :=
  match validate_data rules data with
  | .error e => .error e
  | .ok errs =>
    if errs.isEmpty then .ok (.inr (successMsg data table), [data])
    else .ok (.inl errs, [])

/-- Generic association-list lookup (Python `dict` access by key). -/
def alookup {α : Type} : List (String × α) → String → Option α
  | [], _ => Option.none
  | (k, v) :: rest, f => if k = f then some v else alookup rest f

/-- Python whitespace characters recognized by `str.strip()` (ASCII part). -/
def pyIsSpace (c : Char) : Bool :=
  c = ' ' || c = '\t' || c = '\n' || c = '\r' || c = '\x0b' || c = '\x0c'

/-- Python `str.strip()`: remove leading and trailing whitespace. -/
def pyStrip (s : String) : String :=
  String.mk (((s.data.dropWhile pyIsSpace).reverse.dropWhile pyIsSpace).reverse)

/-- Python `str.split(sep)` for a one-character separator, on char lists:
`"".split(sep) = [""]`, and separators delimit (possibly empty) chunks. -/
def pySplit (sep : Char) : List Char → List (List Char)
  | [] => [[]]
  | c :: rest =>
    match pySplit sep rest with
    | [] => [[]]
    | g :: gs => if c = sep then [] :: g :: gs else (c :: g) :: gs

/-- Python `str.split(sep)` on strings. -/
def pySplitStr (sep : Char) (s : String) : List String :=
  (pySplit sep s.data).map String.mk

/-- One `dict` insertion: overwrite in place when the key exists, append
otherwise (Python dicts preserve insertion order). -/
def dictInsert (m : List (String × String)) (kv : String × String) :
    List (String × String) :=
  if m.any (fun p => p.1 = kv.1)
  then m.map (fun p => if p.1 = kv.1 then kv else p)
  else m ++ [kv]

/-- Python `dict(pairs)`: later pairs overwrite earlier ones with the same
key. -/
def pyDict (ps : List (String × String)) : List (String × String) :=
  ps.foldl dictInsert []

/-- Python `dict(zip(headers, vals))` (`src/validator.new.py` line 63):
`zip` truncates to the shorter list, so a short value list produces a record
lacking the trailing header fields entirely. -/
def mkRecord (headers vals : List String) : List (String × String) :=
  pyDict (headers.zip vals)

/-- Per-field rule of the standalone validator's JSON schema
(`src/validator.new.py`): `size`, `type` and `required` are accessed
unconditionally; the rest are optional with the defaults used at each
access site. -/
structure SField where
  size : Int
  type : String
  required : Bool
  size_before_decimal : Option Int := Option.none
  size_after_decimal : Option Int := Option.none
  allowed_values : Option (List String) := Option.none
  range : Option (Int × Int) := Option.none
  zero_check : Bool := false
deriving DecidableEq

/-- The embedded rule document of `src/validator.new.py` (lines 5-37):
field definitions of the sample JSON configuration. -/
def field_definitions : List (String × SField) :=
  [("FIELD1", { size := 500, type := "alpha_numeric", required := true }),
   ("FIELD2", { size := 100, type := "alpha_numeric", required := true,
                allowed_values := some ["ValidText", "XYZ789"] }),
   ("FIELD_DEC1", { size := 21, type := "decimal", required := false,
                    size_before_decimal := some 10, size_after_decimal := some 10,
                    range := some (0, 1000) }),
   ("FIELD_NUMERIC1", { size := 21, type := "numeric", required := false,
                        zero_check := true })]

/-- The embedded sample table text of `src/validator.new.py` (lines 40-47). -/
def table_data_str : String :=
  "\nFIELD1,FIELD2,FIELD_DEC1,FIELD_NUMERIC1\nABC123,XYZ789,123.45,9876543210\nABC123,XYZ789,123.45,9876543210\nLONG_TEXT_EXCEEDING_LIMIT,ValidText,12.34,5678\n,,456.78,90\nValue123,InvalidValue,1500.99,0\n"

/-- `table_data_str.strip().split("\n")` (`src/validator.new.py` line 55). -/
def table_lines : List String := pySplitStr '\n' (pyStrip table_data_str)

/-- The fixture's header fields (`src/validator.new.py` line 56). -/
def fixtureHeaders : List String := pySplitStr ',' (table_lines.headD "")

/-- The fixture's parsed records (`src/validator.new.py` line 63). -/
def table_records : List (List (String × String)) :=
  (table_lines.drop 1).map (fun line => mkRecord fixtureHeaders (pySplitStr ',' line))

/-- Embedding of `is_alpha_numeric(value)` (`src/validator.new.py`
lines 66-67): `re.match(r'^[a-zA-Z0-9]*$', value)` — zero or more, so the
empty string matches. -/
def is_alpha_numeric (value : String) : Bool := pyMatchDollar alphaStarCore value

/-- Embedding of `is_numeric(value)` (`src/validator.new.py` lines 69-70). -/
def is_numeric (value : String) : Bool := pyMatchDollar numericCore value

/-- Python `re.match(r'^(\d+)(\.\d+)?$', value)` returning the groups;
`$` also matches just before one trailing newline. -/
def pyDecMatch (s : String) : Option (List Char × List Char) :=
  match decGroups s.data with
  | some r => some r
  | Option.none =>
    match s.data.getLast? with
    | some '\n' => decGroups s.data.dropLast
    | _ => Option.none

/-- Embedding of `is_decimal(value, before_decimal, after_decimal)`
(`src/validator.new.py` lines 72-77): on a match, true iff the integer-part
digit count is at most `before_decimal` and the fractional-part digit count
(0 when absent) is at most `after_decimal`. -/
def is_decimal (value : String) (before_decimal after_decimal : Int) : Bool :=
  match pyDecMatch value with
  | some g => ((g.1.length : Int) ≤ before_decimal) && ((g.2.length : Int) ≤ after_decimal)
  | Option.none => false

/-- Value of a digit list as a natural number. -/
def digitsToNat (ds : List Char) : Nat :=
  ds.foldl (fun n c => n * 10 + (c.toNat - '0'.toNat)) 0

/-- Optional sign at the head of a char list: sign (`1` or `-1`) and rest. -/
def parseSign : List Char → Int × List Char
  | '+' :: r => (1, r)
  | '-' :: r => (-1, r)
  | r => (1, r)

/-- Exponent suffix of a float literal (after `e`/`E`). -/
def parseExp (d : Dec10) (cs : List Char) : Option Dec10 :=
  let p := parseSign cs
  let ds := p.2.takeWhile isAsciiDigitC
  if ds.isEmpty ∨ ¬ (p.2.dropWhile isAsciiDigitC).isEmpty then Option.none
  else
    let e := digitsToNat ds
    if p.1 ≥ 0 then some ⟨d.num * (10 : Int) ^ e, d.scale⟩
    else some ⟨d.num, d.scale + e⟩

/-- Model of Python `float(value)` as an exact decimal: optional sign,
digits with an optional point (at least one digit on either side), optional
exponent.  Underscore separators, `inf`/`nan` spellings and surrounding
whitespace accepted by the real `float()` are outside this model (values
reaching it in the validator are already stripped); binary64 rounding is not
modelled. -/
def pyFloat (s : String) : Option Dec10 :=
  let p := parseSign s.data
  let ip := p.2.takeWhile isAsciiDigitC
  let r1 := p.2.dropWhile isAsciiDigitC
  let fp := match r1 with
            | '.' :: t => t.takeWhile isAsciiDigitC
            | _ => []
  let r2 := match r1 with
            | '.' :: t => t.dropWhile isAsciiDigitC
            | t => t
  if ip.isEmpty ∧ fp.isEmpty then Option.none
  else
    let base : Dec10 := ⟨p.1 * (digitsToNat (ip ++ fp) : Int), fp.length⟩
    match r2 with
    | [] => some base
    | 'e' :: t => parseExp base t
    | 'E' :: t => parseExp base t
    | _ => Option.none

/-- Python `min_val <= num_value` for an `int` bound and a float value. -/
def intLeDec (mn : Int) (q : Dec10) : Bool := mn * (10 : Int) ^ q.scale ≤ q.num

/-- Python `num_value <= max_val` for a float value and an `int` bound. -/
def decLeInt (q : Dec10) (mx : Int) : Bool := q.num ≤ mx * (10 : Int) ^ q.scale

/-- Python `str` of a list of strings (used in the allowed-values error). -/
def pyListRepr (l : List String) : String :=
  "[" ++ String.intercalate ", " (l.map (fun s => "'" ++ s ++ "'")) ++ "]"

/-- Common `"Row {idx}: '{field}'"` prefix of the standalone validator's
per-field error messages. -/
def rowPrefixS (idx : Nat) (f : String) : String :=
  "Row " ++ toString idx ++ ": '" ++ f ++ "'"

/-- Unexpected-field error (`src/validator.new.py` line 84). -/
def unexpectedMsgS (idx : Nat) (f : String) : String :=
  "Row " ++ toString idx ++ ": Unexpected field '" ++ f ++ "'"

/-- Required-field error (line 91). -/
def reqMsgS (idx : Nat) (f : String) : String :=
  rowPrefixS idx f ++ " is required but missing."

/-- Size error (line 95). -/
def sizeMsgS (idx : Nat) (f : String) (size : Int) : String :=
  rowPrefixS idx f ++ " exceeds max size " ++ toString size ++ "."

/-- Alphanumeric type error (line 99). -/
def alphaMsgS (idx : Nat) (f : String) : String :=
  rowPrefixS idx f ++ " should be alphanumeric."

/-- Numeric type error (line 101). -/
def numMsgS (idx : Nat) (f : String) : String :=
  rowPrefixS idx f ++ " should be numeric."

/-- Decimal type error (line 106). -/
def decMsgS (idx : Nat) (f : String) (b a : Int) : String :=
  rowPrefixS idx f ++ " should be decimal with " ++ toString b ++
    " digits before and " ++ toString a ++ " digits after decimal."

/-- Out-of-range error (line 114). -/
def rangeMsgS (idx : Nat) (f : String) (q : Dec10) (mn mx : Int) : String :=
  rowPrefixS idx f ++ " value " ++ pyFloatRepr q ++ " out of range " ++
    toString mn ++ "-" ++ toString mx ++ "."

/-- Not-a-number range error (line 116). -/
def nanMsgS (idx : Nat) (f : String) : String :=
  rowPrefixS idx f ++ " should be a number for range check."

/-- Zero-check error (line 120). -/
def zeroMsgS (idx : Nat) (f : String) : String :=
  rowPrefixS idx f ++ " should not be zero."

/-- Allowed-values error (line 124). -/
def allowedMsgS (idx : Nat) (f v : String) (l : List String) : String :=
  rowPrefixS idx f ++ " has an invalid value '" ++ v ++ "'. Allowed values: " ++
    pyListRepr l ++ "."

/-- Type-validation branch of `validate_record` (`src/validator.new.py`
lines 97-106): mutually exclusive `elif` chain, evaluated only for a
non-empty trimmed value. -/
def typeErrsS (spec : SField) (idx : Nat) (f v : String) : List String :=
  if spec.type = "alpha_numeric" then
    if v ≠ "" ∧ ¬ is_alpha_numeric v then [alphaMsgS idx f] else []
  else if spec.type = "numeric" then
    if v ≠ "" ∧ ¬ is_numeric v then [numMsgS idx f] else []
  else if spec.type = "decimal" then
    let b := spec.size_before_decimal.getD 10
    let a := spec.size_after_decimal.getD 10
    if v ≠ "" ∧ ¬ is_decimal v b a then [decMsgS idx f b a] else []
  else []

/-- Range-check branch of `validate_record` (`src/validator.new.py`
lines 108-116): run when a range is declared and the value is non-empty;
conversion failure yields the not-a-number error, otherwise an out-of-range
error when outside the inclusive bounds. -/
def rangeErrsS (spec : SField) (idx : Nat) (f v : String) : List String :=
  match spec.range with
  | some (mn, mx) =>
    if v ≠ "" then
      match pyFloat v with
      | some q =>
        if ¬ (intLeDec mn q ∧ decLeInt q mx) then [rangeMsgS idx f q mn mx] else []
      | Option.none => [nanMsgS idx f]
    else []
  | Option.none => []

/-- Allowed-values branch (`src/validator.new.py` lines 122-124). -/
def allowedErrsS (spec : SField) (idx : Nat) (f v : String) : List String :=
  match spec.allowed_values with
  | some l => if v ≠ "" ∧ ¬ v ∈ l then [allowedMsgS idx f v l] else []
  | Option.none => []

/-- Per-field body of `validate_record` (`src/validator.new.py`
lines 81-124): unknown fields yield only the unexpected-field error; known
fields are trimmed and pass through the required, size, type, range, zero
and allowed-values checks in order. -/
def fieldErrs (defs : List (String × SField)) (idx : Nat) (p : String × String) :
    List String :=
  match alookup defs p.1 with
  | Option.none => [unexpectedMsgS idx p.1]
  | some spec =>
    let v := pyStrip p.2
    (if spec.required ∧ v = "" then [reqMsgS idx p.1] else [])
      ++ (if (v.length : Int) > spec.size then [sizeMsgS idx p.1 spec.size] else [])
      ++ typeErrsS spec idx p.1 v
      ++ rangeErrsS spec idx p.1 v
      ++ (if spec.zero_check ∧ v = "0" then [zeroMsgS idx p.1] else [])
      ++ allowedErrsS spec idx p.1 v

/-- Embedding of `validate_record(record, row_idx)` (`src/validator.new.py`
lines 79-126).  The Python function closes over the module-level
`field_definitions`; the model takes the definitions as a parameter and the
fixture instantiates it with `field_definitions`. -/
def validate_record (defs : List (String × SField))
    (record : List (String × String)) (row_idx : Nat) : List String :=
  record.flatMap (fieldErrs defs row_idx)

/-- Duplicate-row message (`src/validator.new.py` line 134). -/
def dupMsg (i : Nat) : String := "Row " ++ toString i ++ " is a duplicate."

/-- Worker of `check_duplicates`: `seen` is the set of record contents met so
far, `i` the 1-based position of the next record. -/
def cdGo (seen : List (List (String × String))) (i : Nat) :
    List (List (String × String)) → List String
  | [] => []
  | r :: rs =>
    (if r ∈ seen then [dupMsg i] else [])
      ++ cdGo (if r ∈ seen then seen else r :: seen) (i + 1) rs

/-- Embedding of `check_duplicates(records)` (`src/validator.new.py`
lines 128-136): records are compared by full content (the order-sensitive
sequence of field/value pairs, Python's `tuple(record.items())`). -/
def check_duplicates (records : List (List (String × String))) : List String :=
  cdGo [] 1 records

/-- Per-field rule as accessed by `validate_csv_against_table`
(`src/validator.py` lines 37-40): `type`, `required` and `size` are read
unconditionally; the decimal digit bounds through `.get(…, 0)`. -/
structure VField where
  type : String
  required : Bool
  size : Int
  size_before_decimal : Option Int := Option.none
  size_after_decimal : Option Int := Option.none
deriving DecidableEq

/-- The structural validator's parsed JSON template. -/
structure VTemplate where
  fields : List (String × VField)
  duplicate_field_check : Bool := false
  columns : List String
deriving DecidableEq

/-- Order-independent equality of two column-name lists, the model of
`set(a) == set(b)`. -/
def sameSetS (a b : List String) : Bool :=
  a.all (fun x => x ∈ b) && b.all (fun x => x ∈ a)

/-- Server-side count of rows whose value in column `c` fails a full-match
pattern (`~col(c).rlike(p)` plus `count`): SQL three-valued logic excludes
NULL values from the count.  Snowflake's RLIKE matches the whole subject. -/
def countPatternFails (pat : List Char → Bool) (c : String) (rows : List Row) : Nat :=
  rows.countP (fun r =>
    match rlookupD r c with
    | .str s => !pat s.data
    | _ => false)

/-- Server-side count of NULL values in column `c`
(`col(c).isNull()` plus `count`). -/
def countNulls (c : String) (rows : List Row) : Nat :=
  rows.countP (fun r => rlookupD r c = .none)

/-- Whole-subject match for the structural validator's decimal pattern
`^[0-9]{0,b}(\.[0-9]{0,a})?$` built at `src/validator.py` line 66. -/
def vdecCore (b a : Int) (cs : List Char) : Bool :=
  let ip := cs.takeWhile isAsciiDigitC
  let rest := cs.dropWhile isAsciiDigitC
  ((ip.length : Int) ≤ b) &&
    (rest.isEmpty ||
      (match rest with
       | '.' :: fr =>
         (((fr.takeWhile isAsciiDigitC).length : Int) ≤ a) &&
           (fr.dropWhile isAsciiDigitC).isEmpty
       | _ => false))

/-- Type-specific checks of one column (`src/validator.py` lines 47-73).
For `alpha_numeric` columns the dataframe is *reassigned* to its non-NULL
rows (line 50) before the pattern-failure count at line 51; a non-zero count
prints and returns `False` (modelled `.ok Option.none`).  When that count is
zero, line 55 builds `col(column).rlength()` — but the Snowpark `Column`
class has no `rlength` method, so the attribute access raises
`AttributeError` before any size comparison runs.  `decimal` columns count
failures of the constructed pattern at line 66 on the unfiltered dataframe
(SQL three-valued logic keeps NULLs out of the count) and then fault the
same way at line 70.  Other types (e.g. `numeric`) have no branch and leave
the dataframe unchanged. -/
def vtypeCheck (fr : VField) (c : String) (df : DataFrame) :
    Except PyErr (Option DataFrame) :=
  if fr.type = "alpha_numeric" then
    let df1 : DataFrame :=
      { df with rows := df.rows.filter (fun r => rlookupD r c ≠ .none) }
    if 0 < countPatternFails alphaStarCore c df1.rows then .ok Option.none
    else .error .attributeError
  else if fr.type = "decimal" then
    let pat := vdecCore (fr.size_before_decimal.getD 0) (fr.size_after_decimal.getD 0)
    if 0 < countPatternFails pat c df.rows then .ok Option.none
    else .error .attributeError
  else .ok (some df)

/-- Per-column loop of `validate_csv_against_table`
(`src/validator.py` lines 32-80): template lookup, presence in the CSV's
(original) column list, type checks, then the required-NULL check evaluated
against the dataframe as filtered so far.  `.ok Option.none` models an early
`return False`; `.error` models an exception escaping the loop. -/
def vcolLoop (fields : List (String × VField)) (csvCols : List String) :
    List String → DataFrame → Except PyErr (Option DataFrame)
  | [], df => .ok (some df)
  | c :: rest, df =>
    match alookup fields c with
    | Option.none => .ok Option.none
    | some fr =>
      if ¬ c ∈ csvCols then .ok Option.none
      else
        match vtypeCheck fr c df with
        | .error e => .error e
        | .ok Option.none => .ok Option.none
        | .ok (some df1) =>
          if fr.required ∧ 0 < countNulls c df1.rows then .ok Option.none
          else vcolLoop fields csvCols rest df1

/-- Full-row duplicate detection (`src/validator.py` lines 83-87):
`group_by` over all CSV columns followed by a count of groups with more than
one member — some grouping key (the tuple of all column values, NULLs
grouping together) occurs in at least two rows. -/
def hasDupRows (cols : List String) (rows : List Row) : Bool :=
  ¬ (rows.map (fun r => cols.map (rlookupD r))).Nodup

/-- Embedding of `validate_csv_against_table(file_name, table_name,
json_template, session)` (`src/validator.py` lines 8-100).  The CSV file is
modelled by the dataframe it loads into; the session by the mapping from
table names to their column lists (only `session.table(…).columns` is
used).  The missing-`columns` check raises `ValueError`; every other failing
check prints and returns `False`. -/
def validate_csv_against_table (csv : DataFrame) (table_name : String)
    (template : VTemplate) (session : List (String × List String)) :
    Except PyErr Bool :=
  if template.columns.isEmpty then .error .valueError
  else if ¬ sameSetS csv.columns template.columns then .ok false
  else
    match vcolLoop template.fields csv.columns template.columns csv with
    | .error e => .error e
    | .ok Option.none => .ok false
    | .ok (some df1) =>
      if template.duplicate_field_check ∧ hasDupRows csv.columns df1.rows then .ok false
      else if ¬ sameSetS csv.columns ((alookup session table_name).getD []) then .ok false
      else .ok true

/-- Specification-side reading of a full `(\d+)(\.\d+)?` match of `cs` with
integer group `ip` and fractional group `fp`. -/
def DecMatchSpec (cs ip fp : List Char) : Prop :=
  ip ≠ [] ∧ (∀ c ∈ ip, isAsciiDigitC c = true) ∧
    ((fp = [] ∧ cs = ip) ∨
      (fp ≠ [] ∧ (∀ c ∈ fp, isAsciiDigitC c = true) ∧ cs = ip ++ '.' :: fp))

/-- Language of `[a-zA-Z0-9]+`. -/
def AlphaNumLang (cs : List Char) : Prop := cs ≠ [] ∧ ∀ c ∈ cs, isAsciiAlnumC c = true

/-- Language of `\d+`. -/
def NumericLang (cs : List Char) : Prop := cs ≠ [] ∧ ∀ c ∈ cs, isAsciiDigitC c = true

/-- Language of `\d{1,10}(\.\d{1,10})?`. -/
def DecimalLang (cs : List Char) : Prop :=
  ∃ ip fp, DecMatchSpec cs ip fp ∧ ip.length ≤ 10 ∧ fp.length ≤ 10

/-- Python `re.match('^P$', s)` succeeds iff the subject, or the subject
minus one trailing newline, is in the language of `P`. -/
def PyAnchored (P : List Char → Prop) (s : String) : Prop :=
  P s.data ∨ ∃ l, s.data = l ++ ['\n'] ∧ P l

/-- The specification-side notion of C8's claim: the value wholly matches
`^(\d+)(\.\d+)?$` (as a whole-string match, with no newline allowance). -/
def WhollyDecimal (s : String) : Prop := ∃ ip fp, DecMatchSpec s.data ip fp

/-- Specification-side duplicate reporting: `pre` holds the records already
seen (in order); each record equal to an earlier one is reported with its
1-based position, and every record is remembered. -/
def dupSpecGo (pre : List (List (String × String))) :
    List (List (String × String)) → List String
  | [] => []
  | r :: rs =>
    (if r ∈ pre then [dupMsg (pre.length + 1)] else []) ++ dupSpecGo (pre ++ [r]) rs

/-- Decidable equality for `Except` results. -/
instance {ε α : Type} [DecidableEq ε] [DecidableEq α] : DecidableEq (Except ε α) := fun a b =>
  match a, b with
  | .error e, .error e' => if h : e = e' then .isTrue (by rw [h]) else .isFalse (by simp [h])
  | .ok v, .ok v' => if h : v = v' then .isTrue (by rw [h]) else .isFalse (by simp [h])
  | .error _, .ok _ => .isFalse (by simp)
  | .ok _, .error _ => .isFalse (by simp)

/-- Left cancellation of string append. -/
theorem strAppendCancel (s : String) {a b : String} (h : s ++ a = s ++ b) : a = b := by
  have h2 := congrArg String.data h
  simp only [String.data_append] at h2
  exact String.ext (List.append_cancel_left h2)

/-- The characters of an appended string, within the left part. -/
theorem strDataAppendGet (a ta : String) (k : Nat) (h : k < a.data.length) :
    (a ++ ta).data[k]? = a.data[k]? := by
  rw [String.data_append]
  exact List.getElem?_append_left h

/-- Two strings with constant heads differing at index `k` are distinct,
whatever their tails. -/
theorem strClash (a ta b tb : String) (k : Nat) (h1 : k < a.data.length)
    (h2 : k < b.data.length) (hne : a.data[k]? ≠ b.data[k]?) : a ++ ta ≠ b ++ tb := by
  intro h
  apply hne
  rw [← strDataAppendGet a ta k h1, ← strDataAppendGet b tb k h2, h]

/-- Variant of `strClash` with no tail on the right. -/
theorem strClashR (a ta b : String) (k : Nat) (h1 : k < a.data.length)
    (hne : a.data[k]? ≠ b.data[k]?) : a ++ ta ≠ b := by
  intro h
  apply hne
  rw [← strDataAppendGet a ta k h1, h]

/-- `takeWhile`/`dropWhile` on a list of satisfiers followed by a stopper. -/
theorem takeWhileAppendStop {α : Type} (p : α → Bool) (l1 l2 : List α) (x : α)
    (h1 : ∀ a ∈ l1, p a = true) (hx : p x = false) :
    (l1 ++ x :: l2).takeWhile p = l1 ∧ (l1 ++ x :: l2).dropWhile p = x :: l2 := by
  induction l1 with
  | nil => simp [List.takeWhile_cons, List.dropWhile_cons, hx]
  | cons a as ih =>
    have ha : p a = true := h1 a (by simp)
    have hih := ih (fun b hb => h1 b (by simp [hb]))
    simp [List.takeWhile_cons, List.dropWhile_cons, ha, hih.1, hih.2]

/-- The greedy group extraction agrees with the specification reading. -/
theorem decGroups_iff (cs ip fp : List Char) :
    decGroups cs = some (ip, fp) ↔ DecMatchSpec cs ip fp := by
  have hcs : cs.takeWhile isAsciiDigitC ++ cs.dropWhile isAsciiDigitC = cs :=
    List.takeWhile_append_dropWhile isAsciiDigitC cs
  have hdig : ∀ c ∈ cs.takeWhile isAsciiDigitC, isAsciiDigitC c = true :=
    fun c hc => List.mem_takeWhile_imp hc
  constructor
  · intro h
    simp only [decGroups] at h
    split at h
    · exact absurd h (by simp)
    · rename_i hemp
      have hne : cs.takeWhile isAsciiDigitC ≠ [] := by
        intro h0; rw [h0] at hemp; simp at hemp
      split at h
      · rename_i hrest
        simp only [Option.some.injEq, Prod.mk.injEq] at h
        obtain ⟨hip, hfp⟩ := h
        refine ⟨hip ▸ hne, hip ▸ hdig, Or.inl ⟨hfp.symm, ?_⟩⟩
        rw [← hip]
        nth_rewrite 1 [← hcs]
        rw [hrest, List.append_nil]
      · rename_i fr hrest
        split at h
        · rename_i hfr
          simp only [Option.some.injEq, Prod.mk.injEq] at h
          obtain ⟨hip, hfp⟩ := h
          refine ⟨hip ▸ hne, hip ▸ hdig, Or.inr ⟨?_, ?_, ?_⟩⟩
          · rw [← hfp]; intro h0; rw [h0] at hfr; simp at hfr
          · rw [← hfp]; exact fun c hc => (List.all_eq_true.mp hfr.2) c hc
          · rw [← hip, ← hfp]
            nth_rewrite 1 [← hcs]
            rw [hrest]
        · exact absurd h (by simp)
      · exact absurd h (by simp)
  · rintro ⟨hne, hdigs, hrest⟩
    rcases hrest with ⟨hfp, hceq⟩ | ⟨hfpne, hfpd, hceq⟩
    · subst hfp
      rw [hceq]
      have ht : List.takeWhile isAsciiDigitC ip = ip := List.takeWhile_eq_self_iff.mpr hdigs
      have hd : List.dropWhile isAsciiDigitC ip = [] := List.dropWhile_eq_nil_iff.mpr hdigs
      have hie : ip.isEmpty = false := by
        rcases ip with _ | ⟨a, as⟩
        · exact absurd rfl hne
        · rfl
      simp only [decGroups]
      rw [ht, hd]
      simp [hie]
    · rw [hceq]
      have hstop := takeWhileAppendStop isAsciiDigitC ip fp '.' hdigs (by decide)
      have hall : fp.all isAsciiDigitC = true := List.all_eq_true.mpr hfpd
      have hie : fp.isEmpty = false := by
        rcases fp with _ | ⟨a, as⟩
        · exact absurd rfl hfpne
        · rfl
      have hie2 : ip.isEmpty = false := by
        rcases ip with _ | ⟨a, as⟩
        · exact absurd rfl hne
        · rfl
      simp only [decGroups]
      rw [hstop.1, hstop.2]
      simp [hie, hie2, hall]

theorem alphaNumCore_iff (cs : List Char) : alphaNumCore cs = true ↔ AlphaNumLang cs := by
  simp [alphaNumCore, AlphaNumLang, List.all_eq_true, List.isEmpty_iff]

theorem numericCore_iff (cs : List Char) : numericCore cs = true ↔ NumericLang cs := by
  simp [numericCore, NumericLang, List.all_eq_true, List.isEmpty_iff]

theorem decimalCore_iff (cs : List Char) : decimalCore cs = true ↔ DecimalLang cs := by
  unfold decimalCore DecimalLang
  rcases hg : decGroups cs with - | g
  · simp only [Bool.false_eq_true, false_iff]
    rintro ⟨ip, fp, hspec, -, -⟩
    exact absurd ((decGroups_iff cs ip fp).mpr hspec) (by simp [hg])
  · simp only [Bool.and_eq_true, decide_eq_true_eq]
    constructor
    · rintro ⟨h1, h2⟩
      exact ⟨g.1, g.2, (decGroups_iff cs g.1 g.2).mp (by rw [hg]), h1, h2⟩
    · rintro ⟨ip, fp, hspec, h1, h2⟩
      have := (decGroups_iff cs ip fp).mpr hspec
      rw [hg] at this
      simp only [Option.some.injEq] at this
      subst this
      exact ⟨h1, h2⟩

theorem pyMatchDollar_iff (core : List Char → Bool) (P : List Char → Prop)
    (hc : ∀ cs, core cs = true ↔ P cs) (s : String) :
    pyMatchDollar core s = true ↔ PyAnchored P s := by
  unfold pyMatchDollar PyAnchored
  constructor
  · intro h
    rcases Bool.or_eq_true_iff.mp h with h1 | h2
    · exact Or.inl ((hc _).mp h1)
    · right
      rcases hg : s.data.getLast? with - | c
      · rw [hg] at h2; simp at h2
      · rw [hg] at h2
        simp only [Bool.and_eq_true, decide_eq_true_eq] at h2
        obtain ⟨hcn, hcore⟩ := h2
        subst hcn
        have hne : s.data ≠ [] := by intro he; rw [he] at hg; simp at hg
        refine ⟨s.data.dropLast, ?_, (hc _).mp hcore⟩
        have hlast : s.data.getLast hne = '\n' := by
          have := List.getLast?_eq_getLast s.data hne
          rw [hg] at this
          exact Option.some.inj this.symm
        rw [← hlast]
        exact (List.dropLast_append_getLast hne).symm
  · intro h
    apply Bool.or_eq_true_iff.mpr
    rcases h with h1 | ⟨l, hl, hp⟩
    · exact Or.inl ((hc _).mpr h1)
    · right
      rw [hl]
      simp only [List.getLast?_concat, List.dropLast_concat]
      simp [(hc _).mpr hp]

/-- C3 counterexample: for a `field_type` outside the three known ones the
claim requires `check_pattern` to return false for every value, but
`patterns.get(field_type, '')` yields the empty pattern and
`re.match('', value)` succeeds on every string, so `check_pattern` returns
true — even for a value with no alphanumeric character at all. -/
theorem check_pattern_unrecognized_cex :
    check_pattern (.str "@@") "unknown_type" = .ok true
    ∧ check_pattern (.str "") "unknown_type" = .ok true := by
  constructor <;> rfl

/-- C3 (amended): for string values, `check_pattern` is characterized by the
three declared regular expressions — `^[a-zA-Z0-9]+$` for `alpha_numeric`
(the empty string does not match), `^\d+$` for `numeric`,
`^\d{1,10}(\.\d{1,10})?$` for `decimal`, each with Python's
`$`-before-trailing-newline semantics — while for every `field_type` outside
these three it returns true for every string value (the empty fallback
pattern matches everything, not nothing). -/
theorem check_pattern_characterization (s : String) :
    (check_pattern (.str s) "alpha_numeric" = .ok true ↔ PyAnchored AlphaNumLang s)
    ∧ (check_pattern (.str s) "numeric" = .ok true ↔ PyAnchored NumericLang s)
    ∧ (check_pattern (.str s) "decimal" = .ok true ↔ PyAnchored DecimalLang s)
    ∧ (∀ t : String, ¬ t ∈ (["alpha_numeric", "numeric", "decimal"] : List String) →
        check_pattern (.str s) t = .ok true) := by
  refine ⟨?_, ?_, ?_, ?_⟩
  · simpa [check_pattern] using pyMatchDollar_iff alphaNumCore AlphaNumLang alphaNumCore_iff s
  · simpa [check_pattern] using pyMatchDollar_iff numericCore NumericLang numericCore_iff s
  · simpa [check_pattern] using pyMatchDollar_iff decimalCore DecimalLang decimalCore_iff s
  · intro t ht
    simp only [List.mem_cons, List.mem_singleton, not_or] at ht
    simp only [check_pattern]
    rw [if_neg ht.1, if_neg ht.2.1, if_neg ht.2.2.1]

/-- Closed instance of `check_pattern_characterization`'s unrecognized-type
clause. -/
theorem check_pattern_characterization_witness :
    ¬ ("custom" : String) ∈ (["alpha_numeric", "numeric", "decimal"] : List String)
    ∧ check_pattern (.str "##") "custom" = .ok true :=
  ⟨by decide, (check_pattern_characterization "##").2.2.2 "custom" (by decide)⟩

/-- Every character of a `(\d+)(\.\d+)?` match is a digit or the dot. -/
theorem decMatchSpec_chars {cs ip fp : List Char} (h : DecMatchSpec cs ip fp) :
    ∀ c ∈ cs, isAsciiDigitC c = true ∨ c = '.' := by
  obtain ⟨hne, hdig, hrest⟩ := h
  intro c hc
  rcases hrest with ⟨-, hceq⟩ | ⟨-, hfpd, hceq⟩
  · exact Or.inl (hdig c (hceq ▸ hc))
  · rw [hceq] at hc
    rcases List.mem_append.mp hc with h1 | h2
    · exact Or.inl (hdig c h1)
    · rcases List.mem_cons.mp h2 with h3 | h4
      · exact Or.inr h3
      · exact Or.inl (hfpd c h4)

/-- C8 counterexample: Python's `$` also matches just before a trailing
newline, so `is_decimal` accepts a value with a trailing newline that does
not wholly match `^(\d+)(\.\d+)?$`, contradicting the claimed
characterization. -/
theorem is_decimal_newline_cex :
    is_decimal "123\n" 10 10 = true ∧ ¬ WhollyDecimal "123\n" := by
  constructor
  · rfl
  · rintro ⟨ip, fp, hspec⟩
    have hmem : ('\n' : Char) ∈ ("123\n" : String).data := by decide
    rcases decMatchSpec_chars hspec '\n' hmem with h | h
    · exact absurd h (by decide)
    · exact absurd h (by decide)

/-- C8 (amended): `is_decimal value b a` is true iff `value` — or `value`
minus one trailing newline, which Python's `$` also accepts — wholly matches
`(\d+)(\.\d+)?` with an integer-part digit count of at most `b` and a
fractional-part digit count (0 when there is no fractional part) of at most
`a`; in particular `is_decimal "123.45" 10 10` is true and
`is_decimal "123.45" 10 1` is false. -/
theorem is_decimal_characterization :
    (∀ (v : String) (b a : Int),
      is_decimal v b a = true ↔
        ∃ ip fp,
          (DecMatchSpec v.data ip fp ∨ ∃ l, v.data = l ++ ['\n'] ∧ DecMatchSpec l ip fp)
          ∧ (ip.length : Int) ≤ b ∧ (fp.length : Int) ≤ a)
    ∧ is_decimal "123.45" 10 10 = true ∧ is_decimal "123.45" 10 1 = false := by
  refine ⟨?_, rfl, rfl⟩
  intro v b a
  unfold is_decimal pyDecMatch
  rcases hg : decGroups v.data with - | g
  · rcases hl : v.data.getLast? with - | c
    · simp only [Bool.false_eq_true, false_iff]
      rintro ⟨ip, fp, hm, -, -⟩
      rcases hm with hm | ⟨l, hleq, -⟩
      · exact absurd ((decGroups_iff _ ip fp).mpr hm) (by simp [hg])
      · rw [hleq] at hl; simp at hl
    · by_cases hc : c = '\n'
      · subst hc
        have hne : v.data ≠ [] := by intro he; rw [he] at hl; simp at hl
        have hsplit : v.data = v.data.dropLast ++ ['\n'] := by
          have hlast : v.data.getLast hne = '\n' := by
            have := List.getLast?_eq_getLast v.data hne
            rw [hl] at this
            exact Option.some.inj this.symm
          rw [← hlast]
          exact (List.dropLast_append_getLast hne).symm
        rcases hg2 : decGroups v.data.dropLast with - | g2
        · simp only [Bool.false_eq_true, false_iff]
          rintro ⟨ip, fp, hm, -, -⟩
          rcases hm with hm | ⟨l, hleq, hm⟩
          · exact absurd ((decGroups_iff _ ip fp).mpr hm) (by simp [hg])
          · have : l = v.data.dropLast := by
              have := hsplit.symm.trans hleq
              exact (List.append_cancel_right this).symm
            subst this
            exact absurd ((decGroups_iff _ ip fp).mpr hm) (by simp [hg2])
        · simp only [Bool.and_eq_true, decide_eq_true_eq]
          constructor
          · rintro ⟨h1, h2⟩
            exact ⟨g2.1, g2.2,
              Or.inr ⟨v.data.dropLast, hsplit, (decGroups_iff _ g2.1 g2.2).mp (by rw [hg2])⟩,
              h1, h2⟩
          · rintro ⟨ip, fp, hm, h1, h2⟩
            rcases hm with hm | ⟨l, hleq, hm⟩
            · exact absurd ((decGroups_iff _ ip fp).mpr hm) (by simp [hg])
            · have : l = v.data.dropLast := by
                have := hsplit.symm.trans hleq
                exact (List.append_cancel_right this).symm
              subst this
              have := (decGroups_iff _ ip fp).mpr hm
              rw [hg2] at this
              have hg2eq := Option.some.inj this
              subst hg2eq
              exact ⟨h1, h2⟩
      · have hred :
            (match (some c : Option Char) with
             | some '\n' => decGroups v.data.dropLast
             | _ => (Option.none : Option (List Char × List Char))) = Option.none := by
          split
          · rename_i heq
            exact absurd (Option.some.inj heq) hc
          · rfl
        rw [hred]
        simp only [Bool.false_eq_true, false_iff]
        rintro ⟨ip, fp, hm, -, -⟩
        rcases hm with hm | ⟨l, hleq, -⟩
        · exact absurd ((decGroups_iff _ ip fp).mpr hm) (by simp [hg])
        · rw [hleq] at hl
          simp only [List.getLast?_concat, Option.some.injEq] at hl
          exact hc hl.symm
  · simp only [Bool.and_eq_true, decide_eq_true_eq]
    constructor
    · rintro ⟨h1, h2⟩
      exact ⟨g.1, g.2, Or.inl ((decGroups_iff _ g.1 g.2).mp (by rw [hg])), h1, h2⟩
    · rintro ⟨ip, fp, hm, h1, h2⟩
      rcases hm with hm | ⟨l, hleq, hm⟩
      · have := (decGroups_iff _ ip fp).mpr hm
        rw [hg] at this
        have hgeq := Option.some.inj this
        subst hgeq
        exact ⟨h1, h2⟩
      · have hmem : ('\n' : Char) ∈ v.data := by rw [hleq]; simp
        have hspec := (decGroups_iff _ g.1 g.2).mp (by rw [hg])
        rcases decMatchSpec_chars hspec '\n' hmem with h | h
        · exact absurd h (by decide)
        · exact absurd h (by decide)

/-- The seen-set worker agrees with the prefix-based specification whenever
its set holds exactly the records of the processed prefix. -/
theorem cdGo_eq_spec :
    ∀ (rs pre seen : List (List (String × String))),
      (∀ x, x ∈ seen ↔ x ∈ pre) → cdGo seen (pre.length + 1) rs = dupSpecGo pre rs := by
  intro rs
  induction rs with
  | nil => intro pre seen h; rfl
  | cons r rs ih =>
    intro pre seen h
    unfold cdGo dupSpecGo
    have hlen : (pre ++ [r]).length = pre.length + 1 := by simp
    by_cases hr : r ∈ pre
    · rw [if_pos ((h r).mpr hr), if_pos ((h r).mpr hr), if_pos hr]
      have ih2 := ih (pre ++ [r]) seen (fun x => by
        rw [h x]
        simp only [List.mem_append, List.mem_cons, List.not_mem_nil, or_false]
        constructor
        · exact fun hx => Or.inl hx
        · rintro (hx | hx)
          · exact hx
          · rw [hx]; exact hr)
      rw [hlen] at ih2
      rw [ih2]
    · rw [if_neg (fun hx => hr ((h r).mp hx)), if_neg (fun hx => hr ((h r).mp hx)), if_neg hr]
      have ih2 := ih (pre ++ [r]) (r :: seen) (fun x => by
        simp only [List.mem_cons, List.mem_append, List.not_mem_nil, or_false, h x]
        constructor
        · rintro (hx | hx)
          · exact Or.inr hx
          · exact Or.inl hx
        · rintro (hx | hx)
          · exact Or.inr hx
          · exact Or.inl hx)
      rw [hlen] at ih2
      rw [ih2]

set_option maxRecDepth 8000 in
/-- C6: `check_duplicates` remembers the first occurrence of each record's
full content and reports every subsequent record whose content exactly
repeats an earlier one as `"Row {i} is a duplicate."` with `i` its 1-based
position (the prefix-based specification `dupSpecGo`); on the embedded
five-row fixture, whose rows 1 and 2 are identical, it flags exactly
row 2. -/
theorem check_duplicates_spec :
    (∀ records, check_duplicates records = dupSpecGo [] records)
    ∧ check_duplicates table_records = ["Row 2 is a duplicate."] := by
  constructor
  · intro records
    exact cdGo_eq_spec records [] [] (by simp)
  · decide

/-- A value distinct from the singleton's element is not in a conditional
singleton list. -/
theorem notin_ite_singleton {α : Type} {a b : α} (c : Prop) [Decidable c] (h : a ≠ b) :
    a ∉ (if c then [b] else []) := by
  split <;> simp [h]
/-- Distinctness of two per-field error messages. -/
theorem rangeMsgS_ne_reqMsgS {idx : Nat} {f : String} {q : Dec10} {mn mx : Int} :
    rangeMsgS idx f q mn mx ≠ reqMsgS idx f := by
  unfold rangeMsgS reqMsgS
  intro h
  simp only [String.append_assoc] at h
  exact strClashR " value " _ " is required but missing." 1 (by decide) (by decide)
    (strAppendCancel (rowPrefixS idx f) h)

/-- Distinctness of two per-field error messages. -/
theorem rangeMsgS_ne_sizeMsgS {idx : Nat} {f : String} {q : Dec10} {mn mx size : Int} :
    rangeMsgS idx f q mn mx ≠ sizeMsgS idx f size := by
  unfold rangeMsgS sizeMsgS
  intro h
  simp only [String.append_assoc] at h
  exact strClash " value " _ " exceeds max size " _ 1 (by decide) (by decide) (by decide)
    (strAppendCancel (rowPrefixS idx f) h)

/-- Distinctness of two per-field error messages. -/
theorem rangeMsgS_ne_alphaMsgS {idx : Nat} {f : String} {q : Dec10} {mn mx : Int} :
    rangeMsgS idx f q mn mx ≠ alphaMsgS idx f := by
  unfold rangeMsgS alphaMsgS
  intro h
  simp only [String.append_assoc] at h
  exact strClashR " value " _ " should be alphanumeric." 1 (by decide) (by decide)
    (strAppendCancel (rowPrefixS idx f) h)

/-- Distinctness of two per-field error messages. -/
theorem rangeMsgS_ne_numMsgS {idx : Nat} {f : String} {q : Dec10} {mn mx : Int} :
    rangeMsgS idx f q mn mx ≠ numMsgS idx f := by
  unfold rangeMsgS numMsgS
  intro h
  simp only [String.append_assoc] at h
  exact strClashR " value " _ " should be numeric." 1 (by decide) (by decide)
    (strAppendCancel (rowPrefixS idx f) h)

/-- Distinctness of two per-field error messages. -/
theorem rangeMsgS_ne_decMsgS {idx : Nat} {f : String} {q : Dec10} {mn mx b a : Int} :
    rangeMsgS idx f q mn mx ≠ decMsgS idx f b a := by
  unfold rangeMsgS decMsgS
  intro h
  simp only [String.append_assoc] at h
  exact strClash " value " _ " should be decimal with " _ 1 (by decide) (by decide) (by decide)
    (strAppendCancel (rowPrefixS idx f) h)

/-- Distinctness of two per-field error messages. -/
theorem rangeMsgS_ne_nanMsgS {idx : Nat} {f : String} {q : Dec10} {mn mx : Int} :
    rangeMsgS idx f q mn mx ≠ nanMsgS idx f := by
  unfold rangeMsgS nanMsgS
  intro h
  simp only [String.append_assoc] at h
  exact strClashR " value " _ " should be a number for range check." 1 (by decide) (by decide)
    (strAppendCancel (rowPrefixS idx f) h)

/-- Distinctness of two per-field error messages. -/
theorem rangeMsgS_ne_zeroMsgS {idx : Nat} {f : String} {q : Dec10} {mn mx : Int} :
    rangeMsgS idx f q mn mx ≠ zeroMsgS idx f := by
  unfold rangeMsgS zeroMsgS
  intro h
  simp only [String.append_assoc] at h
  exact strClashR " value " _ " should not be zero." 1 (by decide) (by decide)
    (strAppendCancel (rowPrefixS idx f) h)

/-- Distinctness of two per-field error messages. -/
theorem rangeMsgS_ne_allowedMsgS {idx : Nat} {f v : String} {q : Dec10} {mn mx : Int} {l : List String} :
    rangeMsgS idx f q mn mx ≠ allowedMsgS idx f v l := by
  unfold rangeMsgS allowedMsgS
  intro h
  simp only [String.append_assoc] at h
  exact strClash " value " _ " has an invalid value '" _ 1 (by decide) (by decide) (by decide)
    (strAppendCancel (rowPrefixS idx f) h)

/-- Distinctness of two per-field error messages. -/
theorem nanMsgS_ne_reqMsgS {idx : Nat} {f : String} :
    nanMsgS idx f ≠ reqMsgS idx f := by
  unfold nanMsgS reqMsgS
  intro h
  exact absurd (strAppendCancel (rowPrefixS idx f) h) (by decide)

/-- Distinctness of two per-field error messages. -/
theorem nanMsgS_ne_sizeMsgS {idx : Nat} {f : String} {size : Int} :
    sizeMsgS idx f size ≠ nanMsgS idx f := by
  unfold sizeMsgS nanMsgS
  intro h
  simp only [String.append_assoc] at h
  exact strClashR " exceeds max size " _ " should be a number for range check." 1 (by decide) (by decide)
    (strAppendCancel (rowPrefixS idx f) h)

/-- Distinctness of two per-field error messages. -/
theorem nanMsgS_ne_alphaMsgS {idx : Nat} {f : String} :
    nanMsgS idx f ≠ alphaMsgS idx f := by
  unfold nanMsgS alphaMsgS
  intro h
  exact absurd (strAppendCancel (rowPrefixS idx f) h) (by decide)

/-- Distinctness of two per-field error messages. -/
theorem nanMsgS_ne_numMsgS {idx : Nat} {f : String} :
    nanMsgS idx f ≠ numMsgS idx f := by
  unfold nanMsgS numMsgS
  intro h
  exact absurd (strAppendCancel (rowPrefixS idx f) h) (by decide)

/-- Distinctness of two per-field error messages. -/
theorem nanMsgS_ne_decMsgS {idx : Nat} {f : String} {b a : Int} :
    decMsgS idx f b a ≠ nanMsgS idx f := by
  unfold decMsgS nanMsgS
  intro h
  simp only [String.append_assoc] at h
  exact strClashR " should be decimal with " _ " should be a number for range check." 11 (by decide) (by decide)
    (strAppendCancel (rowPrefixS idx f) h)

/-- Distinctness of two per-field error messages. -/
theorem nanMsgS_ne_zeroMsgS {idx : Nat} {f : String} :
    nanMsgS idx f ≠ zeroMsgS idx f := by
  unfold nanMsgS zeroMsgS
  intro h
  exact absurd (strAppendCancel (rowPrefixS idx f) h) (by decide)

/-- Distinctness of two per-field error messages. -/
theorem nanMsgS_ne_allowedMsgS {idx : Nat} {f v : String} {l : List String} :
    allowedMsgS idx f v l ≠ nanMsgS idx f := by
  unfold allowedMsgS nanMsgS
  intro h
  simp only [String.append_assoc] at h
  exact strClashR " has an invalid value '" _ " should be a number for range check." 1 (by decide) (by decide)
    (strAppendCancel (rowPrefixS idx f) h)

/-- Distinctness of two warehouse-pipeline error messages. -/
theorem reqMsgW_ne_sizeMsgW {f : String} : reqMsgW f ≠ sizeMsgW f := by
  unfold reqMsgW sizeMsgW
  intro h
  simp only [String.append_assoc] at h
  exact absurd (strAppendCancel f (strAppendCancel "Field " h)) (by decide)

/-- Distinctness of two warehouse-pipeline error messages. -/
theorem reqMsgW_ne_patMsgW {f t : String} : reqMsgW f ≠ patMsgW f t := by
  unfold reqMsgW patMsgW
  intro h
  simp only [String.append_assoc] at h
  exact strClashR " does not match the expected pattern (" _
    " is required but is null or empty." 1 (by decide) (by decide)
    (strAppendCancel f (strAppendCancel "Field " h)).symm

/-- The out-of-range message never arises from the type-check branch. -/
theorem rangeMsgS_notin_typeErrsS {spec : SField} {idx : Nat} {f v : String}
    {q : Dec10} {mn mx : Int} : rangeMsgS idx f q mn mx ∉ typeErrsS spec idx f v := by
  intro hmem
  unfold typeErrsS at hmem
  split_ifs at hmem <;>
    simp only [List.mem_singleton, List.not_mem_nil] at hmem
  · exact rangeMsgS_ne_alphaMsgS hmem
  · exact rangeMsgS_ne_numMsgS hmem
  · exact notin_ite_singleton _ rangeMsgS_ne_decMsgS hmem

/-- The out-of-range message never arises from the allowed-values branch. -/
theorem rangeMsgS_notin_allowedErrsS {spec : SField} {idx : Nat} {f v : String}
    {q : Dec10} {mn mx : Int} : rangeMsgS idx f q mn mx ∉ allowedErrsS spec idx f v := by
  intro hmem
  unfold allowedErrsS at hmem
  rcases hal : spec.allowed_values with - | l
  · rw [hal] at hmem; exact List.not_mem_nil _ hmem
  · rw [hal] at hmem
    exact notin_ite_singleton _ rangeMsgS_ne_allowedMsgS hmem

/-- The not-a-number message never arises from the type-check branch. -/
theorem nanMsgS_notin_typeErrsS {spec : SField} {idx : Nat} {f v : String} :
    nanMsgS idx f ∉ typeErrsS spec idx f v := by
  intro hmem
  unfold typeErrsS at hmem
  split_ifs at hmem <;>
    simp only [List.mem_singleton, List.not_mem_nil] at hmem
  · exact nanMsgS_ne_alphaMsgS hmem
  · exact nanMsgS_ne_numMsgS hmem
  · exact notin_ite_singleton _ (fun h => nanMsgS_ne_decMsgS h.symm) hmem

/-- The not-a-number message never arises from the allowed-values branch. -/
theorem nanMsgS_notin_allowedErrsS {spec : SField} {idx : Nat} {f v : String} :
    nanMsgS idx f ∉ allowedErrsS spec idx f v := by
  intro hmem
  unfold allowedErrsS at hmem
  rcases hal : spec.allowed_values with - | l
  · rw [hal] at hmem; exact List.not_mem_nil _ hmem
  · rw [hal] at hmem
    exact notin_ite_singleton _ (fun h => nanMsgS_ne_allowedMsgS h.symm) hmem

/-- C9: in `validate_record`, for every field whose rule declares a range
`[mn, mx]` and whose trimmed value is non-empty: when the value converts to
a number (an exact decimal `q.num / 10 ^ q.scale`), the out-of-range error
is emitted iff the number lies strictly outside the inclusive bounds, and no
not-a-number error is emitted; when conversion fails, the not-a-number error
("should be a number for range check") is emitted and no out-of-range error
is.  On the embedded fixture rule (`range = [0, 1000]`): value `"1000"`
passes, `"1000.01"` fails with the out-of-range error, and `"abc"` fails
with the not-a-number diagnosis rather than an out-of-range one. -/
theorem validate_record_range_check :
    (∀ (defs : List (String × SField)) (idx : Nat) (f v : String) (spec : SField)
      (mn mx : Int),
      alookup defs f = some spec → spec.range = some (mn, mx) → pyStrip v ≠ "" →
      (∀ q : Dec10, pyFloat (pyStrip v) = some q →
        ((rangeMsgS idx f q mn mx ∈ fieldErrs defs idx (f, v) ↔
            ¬ (mn * (10 : Int) ^ q.scale ≤ q.num ∧ q.num ≤ mx * (10 : Int) ^ q.scale))
          ∧ nanMsgS idx f ∉ fieldErrs defs idx (f, v)))
      ∧ (pyFloat (pyStrip v) = Option.none →
          (nanMsgS idx f ∈ fieldErrs defs idx (f, v)
            ∧ ∀ (q : Dec10) (mn2 mx2 : Int),
                rangeMsgS idx f q mn2 mx2 ∉ fieldErrs defs idx (f, v))))
    ∧ validate_record field_definitions [("FIELD_DEC1", "1000")] 1 = []
    ∧ validate_record field_definitions [("FIELD_DEC1", "1000.01")] 1 =
        ["Row 1: 'FIELD_DEC1' value 1000.01 out of range 0-1000."]
    ∧ validate_record field_definitions [("FIELD_DEC1", "abc")] 1 =
        ["Row 1: 'FIELD_DEC1' should be decimal with 10 digits before and 10 digits after decimal.",
         "Row 1: 'FIELD_DEC1' should be a number for range check."] := by
  refine ⟨?_, by decide, by decide, by decide⟩
  intro defs idx f v spec mn mx hspec hrange hne
  constructor
  · intro q hq
    have hR : rangeErrsS spec idx f (pyStrip v) =
        if ¬ (intLeDec mn q ∧ decLeInt q mx) then [rangeMsgS idx f q mn mx] else [] := by
      unfold rangeErrsS
      simp only [hrange]
      rw [if_pos hne, hq]
    have h1 : rangeMsgS idx f q mn mx ∉
        (if spec.required ∧ pyStrip v = "" then [reqMsgS idx f] else []) :=
      notin_ite_singleton _ rangeMsgS_ne_reqMsgS
    have h2 : rangeMsgS idx f q mn mx ∉
        (if (((pyStrip v).length : Int) > spec.size) then [sizeMsgS idx f spec.size] else []) :=
      notin_ite_singleton _ rangeMsgS_ne_sizeMsgS
    have h3 : rangeMsgS idx f q mn mx ∉ typeErrsS spec idx f (pyStrip v) :=
      rangeMsgS_notin_typeErrsS
    have h5 : rangeMsgS idx f q mn mx ∉
        (if spec.zero_check ∧ pyStrip v = "0" then [zeroMsgS idx f] else []) :=
      notin_ite_singleton _ rangeMsgS_ne_zeroMsgS
    have h6 : rangeMsgS idx f q mn mx ∉ allowedErrsS spec idx f (pyStrip v) :=
      rangeMsgS_notin_allowedErrsS
    have n1 : nanMsgS idx f ∉
        (if spec.required ∧ pyStrip v = "" then [reqMsgS idx f] else []) :=
      notin_ite_singleton _ nanMsgS_ne_reqMsgS
    have n2 : nanMsgS idx f ∉
        (if (((pyStrip v).length : Int) > spec.size) then [sizeMsgS idx f spec.size] else []) :=
      notin_ite_singleton _ (fun h => nanMsgS_ne_sizeMsgS h.symm)
    have n3 : nanMsgS idx f ∉ typeErrsS spec idx f (pyStrip v) := nanMsgS_notin_typeErrsS
    have n4 : nanMsgS idx f ∉
        (if ¬ (intLeDec mn q ∧ decLeInt q mx) then [rangeMsgS idx f q mn mx] else []) :=
      notin_ite_singleton _ (fun h => rangeMsgS_ne_nanMsgS h.symm)
    have n5 : nanMsgS idx f ∉
        (if spec.zero_check ∧ pyStrip v = "0" then [zeroMsgS idx f] else []) :=
      notin_ite_singleton _ nanMsgS_ne_zeroMsgS
    have n6 : nanMsgS idx f ∉ allowedErrsS spec idx f (pyStrip v) :=
      nanMsgS_notin_allowedErrsS
    have hle1 : (intLeDec mn q = true) ↔ mn * (10 : Int) ^ q.scale ≤ q.num := by
      simp [intLeDec]
    have hle2 : (decLeInt q mx = true) ↔ q.num ≤ mx * (10 : Int) ^ q.scale := by
      simp [decLeInt]
    constructor
    · simp only [fieldErrs, hspec, List.mem_append, hR]
      simp only [h1, h2, h3, h5, h6, false_or, or_false]
      split_ifs with hc
      · constructor
        · intro hmem
          exact absurd hmem (List.not_mem_nil _)
        · intro harith
          rw [← hle1, ← hle2] at harith
          exact absurd hc harith
      · constructor
        · intro _
          rw [← hle1, ← hle2]
          exact hc
        · intro _
          exact List.mem_singleton_self _
    · simp only [fieldErrs, hspec, List.mem_append, hR]
      simp only [n1, n2, n3, n4, n5, n6, or_self, not_false_eq_true]
  · intro hq
    have hR : rangeErrsS spec idx f (pyStrip v) = [nanMsgS idx f] := by
      unfold rangeErrsS
      simp only [hrange]
      rw [if_pos hne, hq]
    have n1 : nanMsgS idx f ∈ fieldErrs defs idx (f, v) := by
      simp only [fieldErrs, hspec, List.mem_append, hR]
      simp [List.mem_singleton]
    refine ⟨n1, ?_⟩
    intro q mn2 mx2
    have h1 : rangeMsgS idx f q mn2 mx2 ∉
        (if spec.required ∧ pyStrip v = "" then [reqMsgS idx f] else []) :=
      notin_ite_singleton _ rangeMsgS_ne_reqMsgS
    have h2 : rangeMsgS idx f q mn2 mx2 ∉
        (if (((pyStrip v).length : Int) > spec.size) then [sizeMsgS idx f spec.size] else []) :=
      notin_ite_singleton _ rangeMsgS_ne_sizeMsgS
    have h3 : rangeMsgS idx f q mn2 mx2 ∉ typeErrsS spec idx f (pyStrip v) :=
      rangeMsgS_notin_typeErrsS
    have h4 : rangeMsgS idx f q mn2 mx2 ∉ ([nanMsgS idx f] : List String) := by
      simp only [List.mem_singleton]
      exact rangeMsgS_ne_nanMsgS
    have h5 : rangeMsgS idx f q mn2 mx2 ∉
        (if spec.zero_check ∧ pyStrip v = "0" then [zeroMsgS idx f] else []) :=
      notin_ite_singleton _ rangeMsgS_ne_zeroMsgS
    have h6 : rangeMsgS idx f q mn2 mx2 ∉ allowedErrsS spec idx f (pyStrip v) :=
      rangeMsgS_notin_allowedErrsS
    simp only [fieldErrs, hspec, List.mem_append, hR]
    simp only [h1, h2, h3, h4, h5, h6, or_self, not_false_eq_true]

/-- C1: `insert_valid_records` is all-or-nothing.  When `validate_data`
returns at least one error, the warehouse write path is never invoked and
the returned value is exactly that non-empty error list; when it returns no
errors, the write path executes exactly once, appending the whole dataset,
and the returned value is the success string stating the exact count of
inserted rows. -/
theorem insert_valid_records_all_or_nothing (rules : ValidationRules)
    (data : DataFrame) (table : String) (errs : List String)
    (h : validate_data rules data = .ok errs) :
    (errs ≠ [] → insert_valid_records data table rules = .ok (.inl errs, []))
    ∧ (errs = [] → insert_valid_records data table rules =
        .ok (.inr ("Successfully inserted " ++ toString data.rows.length ++
          " valid records into " ++ table ++ "."), [data])) := by
  unfold insert_valid_records
  simp only [h]
  constructor
  · intro hne
    rw [if_neg (by simp [List.isEmpty_iff, hne])]
  · intro he
    subst he
    rfl

/-- Closed instance of `insert_valid_records_all_or_nothing`: a dataset with
one invalid row returns the two validation errors and performs no write; a
dataset with one valid row is appended once and yields the success string
with count 1. -/
theorem insert_valid_records_all_or_nothing_witness :
    validate_data
        { fields := [("A", { required := true, type := "numeric" })],
          duplicate_field_check := false, columns := ["A"] }
        { columns := ["A"], rows := [[("A", PyValue.str "")]] } =
      .ok ["Field A is required but is null or empty.",
           "Field A does not match the expected pattern (numeric)."]
    ∧ insert_valid_records { columns := ["A"], rows := [[("A", PyValue.str "")]] } "T"
        { fields := [("A", { required := true, type := "numeric" })],
          duplicate_field_check := false, columns := ["A"] } =
      .ok (.inl ["Field A is required but is null or empty.",
                 "Field A does not match the expected pattern (numeric)."], [])
    ∧ insert_valid_records { columns := ["A"], rows := [[("A", PyValue.str "7")]] } "T"
        { fields := [("A", { required := true, type := "numeric" })],
          duplicate_field_check := false, columns := ["A"] } =
      .ok (.inr "Successfully inserted 1 valid records into T.",
           [{ columns := ["A"], rows := [[("A", PyValue.str "7")]] }]) := by
  refine ⟨by decide, ?_, ?_⟩
  · exact (insert_valid_records_all_or_nothing _ _ "T" _ (by decide)).1 (by decide)
  · exact ((insert_valid_records_all_or_nothing _ _ "T" [] (by decide)).2 rfl).trans (by decide)

/-- C2 counterexample: for a present optional field whose value is absent
(`None`), the claim requires `validate_data` to append the pattern error and
not fault; but `re.match` on `None` raises `TypeError`, so `validate_data`
raises instead of returning an error list. -/
theorem validate_data_null_pattern_cex :
    validate_data
        { fields := [("F", { required := false, type := "numeric" })],
          duplicate_field_check := false, columns := ["F"] }
        { columns := ["F"], rows := [[("F", PyValue.none)]] } = .error .typeError := by
  decide

/-- `check_pattern` never raises on a string subject. -/
theorem check_pattern_str_ok (s t : String) : ∃ b, check_pattern (.str s) t = .ok b := by
  unfold check_pattern
  split_ifs <;> exact ⟨_, rfl⟩

/-- The only exception the per-field body raises is `TypeError` (from the
unconditional pattern check). -/
theorem fieldChecks_error_typeError {f : String} {rule : FieldRule} {v : PyValue}
    {e : PyErr} (h : fieldChecks f rule v = .error e) : e = .typeError := by
  unfold fieldChecks at h
  rcases hcp : check_pattern v rule.type with e2 | b
  · rw [hcp] at h
    simp only [Except.error.injEq] at h
    have : e2 = .typeError := by
      unfold check_pattern at hcp
      rcases v with - | s | n | d | b2
      · exact (Except.error.inj hcp).symm
      · split_ifs at hcp
      · exact (Except.error.inj hcp).symm
      · exact (Except.error.inj hcp).symm
      · exact (Except.error.inj hcp).symm
    rw [← h, this]
  · rw [hcp] at h
    simp at h

/-- The per-field body raises `TypeError` on every non-string value. -/
theorem fieldChecks_nonstring_raises (f : String) (rule : FieldRule) (v : PyValue)
    (hv : ∀ s, v ≠ .str s) : fieldChecks f rule v = .error .typeError := by
  unfold fieldChecks
  have hcp : check_pattern v rule.type = .error .typeError := by
    unfold check_pattern
    rcases v with - | s | n | d | b
    · rfl
    · exact absurd rfl (hv s)
    · rfl
    · rfl
    · rfl
  rw [hcp]

/-- `None` is not a string value. -/
theorem pynone_ne_str (s : String) : PyValue.none ≠ PyValue.str s := by simp

/-- The row loop raises whenever some ruled field of the row holds `None`. -/
theorem rowLoop_none_raises :
    ∀ (fields : List (String × FieldRule)) (row : Row) (f : String) (rule : FieldRule),
      (f, rule) ∈ fields → rlookup row f = some PyValue.none →
      rowLoop fields row = .error .typeError := by
  intro fields
  induction fields with
  | nil => intro row f rule hmem; exact absurd hmem (List.not_mem_nil _)
  | cons p rest ih =>
    intro row f rule hmem hlook
    rcases List.mem_cons.mp hmem with heq | hmem2
    · rcases p with ⟨g, r0⟩
      have hf : f = g := congrArg Prod.fst heq
      subst hf
      unfold rowLoop
      simp only [hlook]
      rw [fieldChecks_nonstring_raises f r0 PyValue.none (pynone_ne_str ·)]
      rfl
    · rcases p with ⟨g, r0⟩
      unfold rowLoop
      rcases hl0 : rlookup row g with - | v
      · simp only [hl0]
        exact ih row f rule hmem2 hlook
      · simp only [hl0]
        rcases hfc : fieldChecks g r0 v with e | l
        · rw [fieldChecks_error_typeError hfc]
          rfl
        · rw [ih row f rule hmem2 hlook]
          rfl

/-- C2 (amended): the pattern check is evaluated unconditionally for every
ruled field present in a row.  For a string value on which `check_pattern`
fails, the error `"Field {field} does not match the expected pattern
({type})."` is appended to that field's errors; but for a non-string value —
in particular an absent value (`None`) — `re.match` raises `TypeError`, and
`validate_data` propagates the fault instead of returning the error list
(so the claim's "does not fault on absent values" direction fails, as the
counterexample shows). -/
theorem validate_data_pattern_check_amended :
    (∀ (f : String) (rule : FieldRule) (s : String),
      check_pattern (.str s) rule.type = .ok false →
      ∃ l, fieldChecks f rule (.str s) = .ok l ∧ patMsgW f rule.type ∈ l)
    ∧ (∀ (f : String) (rule : FieldRule) (v : PyValue), (∀ s, v ≠ .str s) →
        fieldChecks f rule v = .error .typeError)
    ∧ (∀ (rules : ValidationRules) (row : Row) (f : String) (rule : FieldRule),
        rules.duplicate_field_check = false →
        (f, rule) ∈ rules.fields → rlookup row f = some PyValue.none →
        validate_data rules { columns := rules.columns, rows := [row] } =
          .error .typeError) := by
  refine ⟨?_, fieldChecks_nonstring_raises, ?_⟩
  · intro f rule s hcp
    unfold fieldChecks
    rw [hcp]
    refine ⟨_, rfl, ?_⟩
    simp [List.mem_append]
  · intro rules row f rule hflag hmem hlook
    unfold validate_data
    rw [hflag]
    simp only [Bool.false_eq_true, if_false]
    unfold dataLoop
    rw [rowLoop_none_raises rules.fields row f rule hmem hlook]
    rfl

/-- Closed instance of `validate_data_pattern_check_amended`: the numeric
pattern fails on `"x"` and the pattern error is appended; a `None` value
raises `TypeError`. -/
theorem validate_data_pattern_check_amended_witness :
    (∃ l, fieldChecks "F" { required := false, type := "numeric" } (.str "x") = .ok l
      ∧ patMsgW "F" "numeric" ∈ l)
    ∧ fieldChecks "F" { required := false, type := "numeric" } PyValue.none =
        .error .typeError := by
  constructor
  · exact validate_data_pattern_check_amended.1 "F"
      { required := false, type := "numeric" } "x" (by decide)
  · exact validate_data_pattern_check_amended.2.1 "F"
      { required := false, type := "numeric" } PyValue.none
      (pynone_ne_str ·)

/-- The type-check branch emits nothing for an empty trimmed value. -/
theorem typeErrsS_empty (spec : SField) (idx : Nat) (f : String) :
    typeErrsS spec idx f "" = [] := by
  unfold typeErrsS
  split_ifs <;> simp_all

/-- The range-check branch emits nothing for an empty trimmed value. -/
theorem rangeErrsS_empty (spec : SField) (idx : Nat) (f : String) :
    rangeErrsS spec idx f "" = [] := by
  unfold rangeErrsS
  rcases h : spec.range with - | p
  · rfl
  · rcases p with ⟨mn, mx⟩
    simp

/-- The allowed-values branch emits nothing for an empty trimmed value. -/
theorem allowedErrsS_empty (spec : SField) (idx : Nat) (f : String) :
    allowedErrsS spec idx f "" = [] := by
  unfold allowedErrsS
  rcases h : spec.allowed_values with - | l
  · rfl
  · simp

/-- C7 counterexample: the fixture marks FIELD1 required, yet a record
omitting it entirely produces no violation at all from `validate_record`
(the iteration visits only the record's own fields), not exactly one
required-field violation as claimed. -/
theorem validate_record_omitted_required_cex :
    ((alookup field_definitions "FIELD1").map (fun r => r.required)) = some true
    ∧ validate_record field_definitions [] 1 = [] := by
  decide

/-- C7 (amended): a record supplying an empty or whitespace-only string for
a required field *present in the record* yields exactly one required-field
violation for that field and nothing else from `validate_record` (for a
nonnegative size limit; the type/pattern checks are skipped for empty
values, so nothing suppresses it); `validate_data` likewise puts the
required-field violation first for a present empty-string value, and no
other emitted error equals it.  A record omitting the field entirely yields
no violation (see the counterexample), and in the warehouse pipeline an
absent (`None`) value makes `validate_data` raise `TypeError` instead. -/
theorem required_field_amended :
    (∀ (defs : List (String × SField)) (idx : Nat) (f v : String) (spec : SField),
      alookup defs f = some spec → spec.required = true → pyStrip v = "" →
      0 ≤ spec.size →
      fieldErrs defs idx (f, v) = [reqMsgS idx f])
    ∧ (∀ (f : String) (rule : FieldRule), rule.required = true →
        ∃ rest, fieldChecks f rule (.str "") = .ok (reqMsgW f :: rest)
          ∧ reqMsgW f ∉ rest)
    ∧ (∀ (defs : List (String × SField)) (idx : Nat), validate_record defs [] idx = []) := by
  refine ⟨?_, ?_, fun defs idx => rfl⟩
  · intro defs idx f v spec hspec hreq hempty hsize
    unfold fieldErrs
    simp only [hspec]
    rw [hempty]
    rw [typeErrsS_empty, rangeErrsS_empty, allowedErrsS_empty]
    rw [if_pos ⟨hreq, rfl⟩]
    have h0 : ¬ ((("" : String).length : Int) > spec.size) := by
      have he : (("" : String).length : Int) = 0 := rfl
      rw [he]
      omega
    rw [if_neg h0]
    rw [if_neg (fun hc => by simp at hc)]
    simp
  · intro f rule hreq
    unfold fieldChecks
    rcases hcp : check_pattern (.str "") rule.type with e | b
    · obtain ⟨b, hb⟩ := check_pattern_str_ok "" rule.type
      rw [hb] at hcp
      cases hcp
    · refine ⟨(if rule.type = "alpha_numeric" ∧ ((pyStr (.str "")).length : Int) > rule.size.getD 0
          then [sizeMsgW f] else [])
          ++ (if b then [] else [patMsgW f rule.type]) ++ [] ++ [], ?_, ?_⟩
      · rw [if_pos ⟨hreq, Or.inr rfl⟩]
        have hz : ¬ (rule.type = "numeric" ∧ pyEqZero (.str "") = true) := by
          rintro ⟨-, hz2⟩
          simp [pyEqZero] at hz2
        rw [if_neg hz]
        have hd : (if rule.type = "decimal" then
            (match PyValue.str "" with
             | .float d => decSizeErrs f rule d
             | _ => ([] : List String)) else []) = [] := by
          split_ifs <;> rfl
        rw [hd]
        rfl
      · intro hmem
        rw [List.append_nil, List.append_nil] at hmem
        rcases List.mem_append.mp hmem with h1 | h2
        · exact notin_ite_singleton _ reqMsgW_ne_sizeMsgW h1
        · rcases hb2 : b
          · rw [hb2] at h2
            rw [if_neg (by simp)] at h2
            exact reqMsgW_ne_patMsgW (List.mem_singleton.mp h2)
          · rw [hb2] at h2
            exact absurd h2 (by simp)

/-- Closed instance of `required_field_amended`: a whitespace-only FIELD1
value yields exactly the one required-field violation, and an empty required
warehouse field emits its required violation first. -/
theorem required_field_amended_witness :
    fieldErrs field_definitions 4 ("FIELD1", "  ") = [reqMsgS 4 "FIELD1"]
    ∧ ∃ rest, fieldChecks "A" { required := true, type := "alpha_numeric" } (.str "") =
        .ok (reqMsgW "A" :: rest) ∧ reqMsgW "A" ∉ rest := by
  constructor
  · exact required_field_amended.1 field_definitions 4 "FIELD1" "  "
      { size := 500, type := "alpha_numeric", required := true }
      (by decide) rfl (by decide) (by decide)
  · exact required_field_amended.2.1 "A"
      { required := true, type := "alpha_numeric" } rfl

/-- Closed instance of `validate_record_range_check`: the fixture row value
`"1500.99"` for FIELD_DEC1 is out of the inclusive range `[0, 1000]` and the
out-of-range error is emitted. -/
theorem validate_record_range_check_witness :
    pyFloat (pyStrip "1500.99") = some ⟨150099, 2⟩
    ∧ (rangeMsgS 1 "FIELD_DEC1" ⟨150099, 2⟩ 0 1000 ∈
        fieldErrs field_definitions 1 ("FIELD_DEC1", "1500.99") ↔
        ¬ ((0 : Int) * (10 : Int) ^ (2 : Nat) ≤ 150099
          ∧ (150099 : Int) ≤ 1000 * (10 : Int) ^ (2 : Nat))) := by
  refine ⟨by decide, ?_⟩
  exact ((validate_record_range_check.1 field_definitions 1 "FIELD_DEC1" "1500.99"
    { size := 21, type := "decimal", required := false,
      size_before_decimal := some 10, size_after_decimal := some 10,
      range := some (0, 1000) }
    0 1000 (by decide) rfl (by decide)).1 ⟨150099, 2⟩ (by decide)).1

/-- `zip` truncates to the shorter list: the keys of `headers.zip vals` are
the first `vals.length` headers. -/
theorem map_fst_zip_take :
    ∀ (hs vs : List String), (hs.zip vs).map Prod.fst = hs.take vs.length := by
  intro hs
  induction hs with
  | nil => intro vs; simp
  | cons h hs ih =>
    intro vs
    rcases vs with - | ⟨v, vs⟩
    · simp
    · simp [List.zip_cons_cons, ih vs]

/-- `dict(pairs)` with pairwise-distinct keys keeps the pairs unchanged. -/
theorem pyDict_nodup_eq :
    ∀ (ps acc : List (String × String)), ((acc ++ ps).map Prod.fst).Nodup →
      ps.foldl dictInsert acc = acc ++ ps := by
  intro ps
  induction ps with
  | nil => intro acc h; simp
  | cons p rest ih =>
    intro acc h
    have hcons : acc ++ p :: rest = (acc ++ [p]) ++ rest := by simp
    have hk : ¬ acc.any (fun q => q.1 = p.1) = true := by
      intro hany
      rcases List.any_eq_true.mp hany with ⟨q, hq, hq2⟩
      simp only [decide_eq_true_eq] at hq2
      rw [List.map_append] at h
      have hdisj := (List.nodup_append.mp h).2.2
      have h1 : q.1 ∈ acc.map Prod.fst := List.mem_map_of_mem Prod.fst hq
      have h2 : q.1 ∈ (p :: rest).map Prod.fst := by
        simp only [List.map_cons, List.mem_cons]
        exact Or.inl hq2
      exact hdisj h1 h2
    have hstep : dictInsert acc p = acc ++ [p] := by
      unfold dictInsert
      rw [if_neg hk]
    calc (p :: rest).foldl dictInsert acc
        = rest.foldl dictInsert (dictInsert acc p) := rfl
      _ = rest.foldl dictInsert (acc ++ [p]) := by rw [hstep]
      _ = (acc ++ [p]) ++ rest := ih (acc ++ [p]) (by rw [← hcons]; exact h)
      _ = acc ++ p :: rest := by simp

/-- The per-field body consults only the field's own rule lookup. -/
theorem fieldErrs_congr (defs defs2 : List (String × SField)) (idx : Nat)
    (p : String × String) (h : alookup defs p.1 = alookup defs2 p.1) :
    fieldErrs defs idx p = fieldErrs defs2 idx p := by
  unfold fieldErrs
  rw [h]

set_option maxRecDepth 8000 in
/-- C10: a data line with fewer comma-separated values than the header
produces a record that lacks the trailing header fields entirely (the
positional `zip` truncates, and the `dict` keeps exactly the zipped keys
when the headers are distinct); `validate_record`'s output depends only on
the rules of the fields present in the record, so the absent fields —
required or not — contribute no violation of any kind; concretely, a
one-value line against the fixture's four-column header validates to an
empty error list although FIELD2 is required. -/
theorem zip_truncation_silent :
    (∀ (headers vals : List String), headers.Nodup →
      (mkRecord headers vals).map Prod.fst = headers.take vals.length)
    ∧ (∀ (defs defs2 : List (String × SField)) (record : List (String × String)) (idx : Nat),
        (∀ p ∈ record, alookup defs p.1 = alookup defs2 p.1) →
        validate_record defs record idx = validate_record defs2 record idx)
    ∧ ((alookup field_definitions "FIELD2").map (fun r => r.required) = some true
       ∧ mkRecord fixtureHeaders ["ABC"] = [("FIELD1", "ABC")]
       ∧ validate_record field_definitions (mkRecord fixtureHeaders ["ABC"]) 1 = []) := by
  refine ⟨?_, ?_, by decide, by decide, by decide⟩
  · intro headers vals hnd
    have hzip := map_fst_zip_take headers vals
    have hnd2 : ((headers.zip vals).map Prod.fst).Nodup := by
      rw [hzip]
      exact (List.take_sublist vals.length headers).nodup hnd
    unfold mkRecord pyDict
    rw [pyDict_nodup_eq (headers.zip vals) [] (by simpa using hnd2)]
    simpa using hzip
  · intro defs defs2 record idx h
    unfold validate_record
    induction record with
    | nil => rfl
    | cons p rest ih =>
      simp only [List.flatMap_cons]
      rw [fieldErrs_congr defs defs2 idx p (h p (by simp))]
      rw [ih (fun q hq => h q (by simp [hq]))]

set_option maxRecDepth 8000 in
/-- Closed instance of `zip_truncation_silent`: the fixture headers are
distinct, and a one-value line keeps only FIELD1; swapping in an extended
rule set that agrees on FIELD1 leaves the validation outcome unchanged. -/
theorem zip_truncation_silent_witness :
    fixtureHeaders.Nodup
    ∧ (mkRecord fixtureHeaders ["ABC"]).map Prod.fst =
        fixtureHeaders.take (["ABC"] : List String).length
    ∧ validate_record field_definitions [("FIELD1", "ABC")] 1 =
        validate_record (field_definitions ++ [("EXTRA", { size := 1, type := "numeric", required := true })])
          [("FIELD1", "ABC")] 1 := by
  refine ⟨by decide, ?_, ?_⟩
  · exact zip_truncation_silent.1 fixtureHeaders ["ABC"] (by decide)
  · exact zip_truncation_silent.2.1 field_definitions
      (field_definitions ++ [("EXTRA", { size := 1, type := "numeric", required := true })])
      [("FIELD1", "ABC")] 1 (by decide)

/-- C4 counterexample: a CSV whose single, required, `alpha_numeric` column
contains a null does not make `validate_csv_against_table` return false:
line 50's `isNotNull` filter reassigns the dataframe and removes the null
row, the pattern-failure count at line 51 is then zero, and line 55 accesses
the nonexistent `Column.rlength` attribute and raises `AttributeError` — the
required-null count at line 77 is never reached. -/
theorem validate_csv_required_null_cex :
    validate_csv_against_table
        { columns := ["A"], rows := [[("A", PyValue.none)]] } "T"
        { fields := [("A", { type := "alpha_numeric", required := true, size := 5 })],
          duplicate_field_check := false, columns := ["A"] }
        [("T", ["A"])] = .error .attributeError
    ∧ countNulls "A" ([[("A", PyValue.none)]] : List Row) = 1
    ∧ ((alookup [("A", ({ type := "alpha_numeric", required := true, size := 5 } : VField))]
        "A").map (fun r => r.required)) = some true := by
  decide

/-- C4 (amended): the required-column null count is evaluated against the
dataframe as filtered so far, and it is reached only for columns whose type
triggers no type branch (e.g. `numeric`): for such a required column the
function returns false exactly when the column contains a null.  For
`alpha_numeric` and `decimal` required columns the null check is never
reached: when some value fails the pattern count the function returns false
for that reason, and otherwise the size check calls the nonexistent
`Column.rlength()` and raises `AttributeError` — so a null in such a
required column never causes a false return (for `alpha_numeric` the null
rows were already dropped by line 50's filter). -/
theorem validate_csv_required_null_amended :
    (∀ vals : List PyValue,
      validate_csv_against_table
          { columns := ["A"], rows := vals.map (fun v => [("A", v)]) } "T"
          { fields := [("A", { type := "numeric", required := true, size := 5 })],
            duplicate_field_check := false, columns := ["A"] }
          [("T", ["A"])] =
        .ok (vals.all (fun v => v ≠ PyValue.none)))
    ∧ (∀ vals : List PyValue,
        validate_csv_against_table
            { columns := ["A"], rows := vals.map (fun v => [("A", v)]) } "T"
            { fields := [("A", { type := "alpha_numeric", required := true, size := 5 })],
              duplicate_field_check := false, columns := ["A"] }
            [("T", ["A"])] =
          (if vals.any (fun v => match v with
              | PyValue.str s => !alphaStarCore s.data
              | _ => false)
           then .ok false else .error .attributeError))
    ∧ (∀ vals : List PyValue,
        validate_csv_against_table
            { columns := ["A"], rows := vals.map (fun v => [("A", v)]) } "T"
            { fields := [("A", { type := "decimal", required := true, size := 21,
                                 size_before_decimal := some 2,
                                 size_after_decimal := some 2 })],
              duplicate_field_check := false, columns := ["A"] }
            [("T", ["A"])] =
          (if vals.any (fun v => match v with
              | PyValue.str s => !vdecCore 2 2 s.data
              | _ => false)
           then .ok false else .error .attributeError)) := by
  refine ⟨?_, ?_, ?_⟩
  · intro vals
    have hcn : countNulls "A" (vals.map (fun v => [("A", v)])) =
        vals.countP (fun v => v = PyValue.none) := by
      unfold countNulls
      rw [List.countP_map]
      apply List.countP_congr
      intro v hv
      simp [Function.comp, rlookupD, rlookup]
    unfold validate_csv_against_table vcolLoop vtypeCheck alookup
    simp only [show sameSetS ["A"] ["A"] = true from rfl]
    simp [hcn]
    by_cases hmem : PyValue.none ∈ vals
    · have hall : (vals.all fun v => !decide (v = PyValue.none)) = false := by
        rw [List.all_eq_false]
        exact ⟨PyValue.none, hmem, by simp⟩
      simp [hmem, hall]
    · have hall : (vals.all fun v => !decide (v = PyValue.none)) = true := by
        rw [List.all_eq_true]
        intro v hv
        simp only [Bool.not_eq_true', decide_eq_false_iff_not]
        intro he
        rw [he] at hv
        exact hmem hv
      simp [hmem, hall, vcolLoop, show sameSetS ["A"] ["A"] = true from rfl]
  · intro vals
    have hcp : countPatternFails alphaStarCore "A"
        (List.filter (fun r => !decide (rlookupD r "A" = PyValue.none))
          (List.map (fun v => [("A", v)]) vals)) =
        vals.countP (fun v => match v with
          | PyValue.str s => !alphaStarCore s.data
          | _ => false) := by
      unfold countPatternFails
      rw [List.countP_filter, List.countP_map]
      apply List.countP_congr
      intro v hv
      rcases v with - | s | n | d | b <;> simp [Function.comp, rlookupD, rlookup]
    unfold validate_csv_against_table vcolLoop vtypeCheck alookup
    simp
    by_cases hex : ∃ x ∈ vals, (match x with
        | PyValue.str s => !alphaStarCore s.data
        | _ => false) = true
    · have hpos : 0 < countPatternFails alphaStarCore "A"
          (List.filter (fun r => !decide (rlookupD r "A" = PyValue.none))
            (List.map (fun v => [("A", v)]) vals)) := by
        rw [hcp]
        exact List.countP_pos_iff.mpr hex
      simp [hpos, hex]
    · have h0 : countPatternFails alphaStarCore "A"
          (List.filter (fun r => !decide (rlookupD r "A" = PyValue.none))
            (List.map (fun v => [("A", v)]) vals)) = 0 := by
        rw [hcp]
        exact List.countP_eq_zero.mpr (fun a ha hp => hex ⟨a, ha, hp⟩)
      simp [h0, hex]
      rfl
  · intro vals
    have hcp : countPatternFails (vdecCore 2 2) "A" (List.map (fun v => [("A", v)]) vals) =
        vals.countP (fun v => match v with
          | PyValue.str s => !vdecCore 2 2 s.data
          | _ => false) := by
      unfold countPatternFails
      rw [List.countP_map]
      apply List.countP_congr
      intro v hv
      rcases v with - | s | n | d | b <;> simp [Function.comp, rlookupD, rlookup]
    unfold validate_csv_against_table vcolLoop vtypeCheck alookup
    simp
    by_cases hex : ∃ x ∈ vals, (match x with
        | PyValue.str s => !vdecCore 2 2 s.data
        | _ => false) = true
    · have hpos : 0 < countPatternFails (vdecCore 2 2) "A"
          (List.map (fun v => [("A", v)]) vals) := by
        rw [hcp]
        exact List.countP_pos_iff.mpr hex
      simp [hpos, hex]
    · have h0 : countPatternFails (vdecCore 2 2) "A"
          (List.map (fun v => [("A", v)]) vals) = 0 := by
        rw [hcp]
        exact List.countP_eq_zero.mpr (fun a ha hp => hex ⟨a, ha, hp⟩)
      simp [h0, hex]
      rfl

/-- The duplicate-flag block completes (leaving the data unchanged) when no
schema column is present in the data. -/
theorem dupFlagBlock_skip :
    ∀ (cols : List String) (df : DataFrame), (∀ c ∈ cols, ¬ c ∈ df.columns) →
      dupFlagBlock cols df = .ok df := by
  intro cols
  induction cols with
  | nil => intro df h; rfl
  | cons c rest ih =>
    intro df h
    unfold dupFlagBlock
    rw [if_neg (h c (by simp))]
    exact ih df (fun x hx => h x (by simp [hx]))

/-- The duplicate-flag block raises `TypeError` as soon as some schema
column is present in the data (`seen.add(col(field))` on an unhashable
`Column`). -/
theorem dupFlagBlock_raises :
    ∀ (cols : List String) (df : DataFrame), (∃ c ∈ cols, c ∈ df.columns) →
      dupFlagBlock cols df = .error .typeError := by
  intro cols
  induction cols with
  | nil =>
    intro df h
    rcases h with ⟨c, hc, -⟩
    exact absurd hc (List.not_mem_nil c)
  | cons c rest ih =>
    intro df h
    unfold dupFlagBlock
    by_cases hc : c ∈ df.columns
    · rw [if_pos hc]
    · rw [if_neg hc]
      rcases h with ⟨x, hx, hxdf⟩
      rcases List.mem_cons.mp hx with heq | hxr
      · exact absurd (heq ▸ hxdf) hc
      · exact ih df ⟨x, hxr, hxdf⟩

/-- C5 counterexample: `snowflake.snowpark.Column` is unhashable (it
overrides `__eq__` without `__hash__`), so `seen.add(col(field))` at line 36
raises `TypeError` at the first schema column present in the data.  With
`duplicate_field_check` enabled, `validate_data` therefore raises and
returns no error list at all, while with the flag disabled the same dataset
returns `[]` — the returned value is not identical across the two flag
settings. -/
theorem duplicate_flag_cex :
    validate_data
        { fields := [("A", { required := false, type := "numeric" })],
          duplicate_field_check := true, columns := ["A"] }
        { columns := ["A"], rows := [[("A", PyValue.str "5")]] } = .error .typeError
    ∧ validate_data
        { fields := [("A", { required := false, type := "numeric" })],
          duplicate_field_check := false, columns := ["A"] }
        { columns := ["A"], rows := [[("A", PyValue.str "5")]] } = .ok []
    ∧ validate_data
        { fields := [("A", { required := false, type := "numeric" })],
          duplicate_field_check := true, columns := ["A"] }
        { columns := ["A"], rows := [[("A", PyValue.str "5")]] } ≠
      validate_data
        { fields := [("A", { required := false, type := "numeric" })],
          duplicate_field_check := false, columns := ["A"] }
        { columns := ["A"], rows := [[("A", PyValue.str "5")]] } := by
  refine ⟨by decide, by decide, by decide⟩

/-- C5 (amended): the duplicate-flag construction has no effect on the
returned errors only when no schema column is present in the data — the loop
body never executes, and the two flag settings agree.  Whenever some column
of `columns` is present in the data and the flag is enabled,
`seen.add(col(field))` raises `TypeError` (the Snowpark `Column` is
unhashable), so `validate_data` faults and returns no error list at all. -/
theorem duplicate_flag_no_effect (rules : ValidationRules) (data : DataFrame) :
    ((∀ c ∈ rules.columns, ¬ c ∈ data.columns) →
      validate_data { rules with duplicate_field_check := true } data =
        validate_data { rules with duplicate_field_check := false } data)
    ∧ ((∃ c ∈ rules.columns, c ∈ data.columns) →
        validate_data { rules with duplicate_field_check := true } data =
          .error .typeError) := by
  constructor
  · intro h
    unfold validate_data
    simp only [if_true, Bool.false_eq_true, if_false]
    rw [dupFlagBlock_skip rules.columns data h]
  · intro h
    unfold validate_data
    simp only [if_true]
    rw [dupFlagBlock_raises rules.columns data h]

/-- Closed instance of `duplicate_flag_no_effect`: when the schema column is
absent from the data the two flag settings agree, and when it is present the
flag-on run raises `TypeError`. -/
theorem duplicate_flag_no_effect_witness :
    (validate_data
        { fields := [("B", { required := false, type := "numeric" })],
          duplicate_field_check := true, columns := ["B"] }
        { columns := ["A"], rows := [[("A", PyValue.str "5")]] } =
      validate_data
        { fields := [("B", { required := false, type := "numeric" })],
          duplicate_field_check := false, columns := ["B"] }
        { columns := ["A"], rows := [[("A", PyValue.str "5")]] })
    ∧ validate_data
        { fields := [("A", { required := false, type := "numeric" })],
          duplicate_field_check := true, columns := ["A"] }
        { columns := ["A"], rows := [[("A", PyValue.str "5")]] } = .error .typeError := by
  constructor
  · exact (duplicate_flag_no_effect
      { fields := [("B", { required := false, type := "numeric" })],
        duplicate_field_check := true, columns := ["B"] }
      { columns := ["A"], rows := [[("A", PyValue.str "5")]] }).1 (by decide)
  · exact (duplicate_flag_no_effect
      { fields := [("A", { required := false, type := "numeric" })],
        duplicate_field_check := true, columns := ["A"] }
      { columns := ["A"], rows := [[("A", PyValue.str "5")]] }).2 ⟨"A", by decide, by decide⟩
